import Mathlib

/-!
# USB class driver session (`src/src/driver.hpp`)

A shallow embedding of the action-driven state machine of the class driver:
the session record `class_driver_t`, the event callback `client_event_cb`,
the actions `action_open_dev` .. `action_close_dev`, `action_ccid_on`, one
iteration of the `while (1)` body of `class_driver_task`, and
`class_driver_client_deregister`.

Conventions of the embedding

* `uint32_t actions` is a `Nat`; `x &= ~FLAG` is `x &&& (0xFFFFFFFF ^^^ FLAG)`,
  the 32-bit complement of the flag.
* pointers and handles are `Nat`, `NULL` is `0`; `esp_err_t` is `Int`, `ESP_OK` is `0`.
* `abort()`, a failing `assert`, a failing `ESP_ERROR_CHECK` and a write
  through a null pointer end the process: actions return `Except Fault _`
  (assertions are compiled in, as in the default build).
* the USB host library is outside the repository: what it answers to the
  calls of one pass is a record `usb_host_replies`, quantified over in the theorems.
-/

namespace Pcsc

/-! ## Data model -/

/-- The enumeration `action_t` (driver.hpp 17-28). -/
inductive action_t where
  | ACTION_CCID_ON
  | ACTION_OPEN_DEV
  | ACTION_GET_DEV_INFO
  | ACTION_GET_DEV_DESC
  | ACTION_GET_CONFIG_DESC
  | ACTION_GET_STR_DESC
  | ACTION_CLOSE_DEV
  | ACTION_EXIT
  | ACTION_RECONNECT
  deriving DecidableEq, Repr

open action_t

/-- The enumerator values of `action_t`. -/
def action_t.val : action_t → Nat
  | ACTION_CCID_ON => 0x00
  | ACTION_OPEN_DEV => 0x01
  | ACTION_GET_DEV_INFO => 0x02
  | ACTION_GET_DEV_DESC => 0x04
  | ACTION_GET_CONFIG_DESC => 0x08
  | ACTION_GET_STR_DESC => 0x10
  | ACTION_CLOSE_DEV => 0x20
  | ACTION_EXIT => 0x40
  | ACTION_RECONNECT => 0x80

/-- The null pointer. -/
def NULL : Nat := 0

/-- The success code of `esp_err_t` (ESP-IDF); the session logic only compares
results with it. -/
def ESP_OK : Int := 0

/-- The generic failure code of `esp_err_t`. -/
def ESP_FAIL : Int := -1

/-- The struct `class_driver_t` (driver.hpp 36-42). -/
structure class_driver_t where
  client_hdl : Nat
  dev_addr : Nat
  dev_hdl : Nat
  actions : Nat
  deriving DecidableEq, Repr

/-- The ways the process ends abnormally. -/
inductive Fault where
  | abort_called
  | assert_failed
  | esp_error_check
  | null_deref
  deriving DecidableEq, Repr

/-- The event kinds of `usb_host_client_event_msg_t`; `OTHER` stands for any
value of the field that is neither of the two enumerators the callback names. -/
inductive usb_host_client_event_t where
  | USB_HOST_CLIENT_EVENT_NEW_DEV
  | USB_HOST_CLIENT_EVENT_DEV_GONE
  | OTHER (code : Nat)
  deriving DecidableEq, Repr

open usb_host_client_event_t

/-- The message handed to the callback: the event kind and `new_dev.address`. -/
structure usb_host_client_event_msg_t where
  event : usb_host_client_event_t
  address : Nat
  deriving DecidableEq, Repr

/-- What the USB host library answers to the calls made during one pass of the
loop, one field per call site. `device_open_hdl` is the value the open call
stores through `&driver_obj->dev_hdl` (`none`: it leaves the field untouched).
`transfer_alloc` tells whether `usb_host_transfer_alloc` stored a transfer in
`ccid_on` (otherwise the pointer stays `NULL`). -/
structure usb_host_replies where
  device_open_err : Int
  device_open_hdl : Option Nat
  device_info_err : Int
  get_device_descriptor_err : Int
  get_active_config_descriptor_err : Int
  str_device_info_err : Int
  device_close_err : Int
  transfer_alloc : Bool
  interface_claim_err : Int
  transfer_submit_err : Int
  deriving DecidableEq, Repr

/-- The local struct of `action_ccid_on` (driver.hpp 86-94), packed. -/
structure usb_setup_custom_t where
  bmRequestType : Nat
  bRequest : Nat
  dIndex : Nat
  dType : Nat
  dLang : Nat
  wLength : Nat
  deriving DecidableEq, Repr

/-- Modelled from the spec: the constant `USB_SETUP_PACKET_SIZE` comes from the
ESP-IDF headers, which are not part of the repository; "the fixed 8-byte
header" of a control transfer (spec, glossary). It is the length of the `val`
member of the union and, by the static assertion of `action_ccid_on`, the
size of the packed struct. -/
def USB_SETUP_PACKET_SIZE : Nat := 8

/-- The `val` view of the union `usb_setup_custom_t`: the bytes of the packed
struct in memory order, the 8-bit fields as they are and the two 16-bit fields
low byte first (the target is little-endian). -/
def usb_setup_custom_t.bytes (d : usb_setup_custom_t) : List Nat :=
  [d.bmRequestType % 256, d.bRequest % 256, d.dIndex % 256, d.dType % 256,
   d.dLang % 256, d.dLang / 256 % 256, d.wLength % 256, d.wLength / 256 % 256]

/-- The fields of `usb_transfer_t` that `action_ccid_on` fills in;
`data_buffer` holds the bytes that `memcpy` wrote at its start. -/
structure usb_transfer_t where
  data_buffer : List Nat
  num_bytes : Nat
  device_handle : Nat
  bEndpointAddress : Nat
  callback : Option Nat
  deriving DecidableEq, Repr

/-! ## Flag arithmetic on `uint32_t` -/

/-- The test `actions & FLAG` used as a condition. -/
def flag_set (actions : Nat) (f : action_t) : Bool :=
  actions &&& f.val != 0

/-- The update `actions &= ~FLAG` on a `uint32_t`. -/
def flag_clear (actions : Nat) (f : action_t) : Nat :=
  actions &&& (0xFFFFFFFF ^^^ f.val)

/-- The update `actions |= FLAG`. -/
def flag_or (actions : Nat) (f : action_t) : Nat :=
  actions ||| f.val

/-! ## The event callback -/

/-- The function `client_event_cb` (driver.hpp 52-76). -/
def client_event_cb (event_msg : usb_host_client_event_msg_t) (driver_obj : class_driver_t) :
    Except Fault class_driver_t :=
  match event_msg.event with
  | USB_HOST_CLIENT_EVENT_NEW_DEV =>
    if driver_obj.dev_addr = 0 then
      .ok { driver_obj with
              dev_addr := event_msg.address
              actions := flag_or driver_obj.actions ACTION_OPEN_DEV }
    else .ok driver_obj
  | USB_HOST_CLIENT_EVENT_DEV_GONE =>
    if driver_obj.dev_hdl ≠ NULL then
      .ok { driver_obj with actions := ACTION_CLOSE_DEV.val }
    else .ok driver_obj
  | OTHER _ => .error Fault.abort_called

/-- An attach notification for `address`: the callback on a `NEW_DEV` message. -/
def on_attach (address : Nat) (driver_obj : class_driver_t) : Except Fault class_driver_t :=
  client_event_cb ⟨USB_HOST_CLIENT_EVENT_NEW_DEV, address⟩ driver_obj

/-- A detach notification: the callback on a `DEV_GONE` message (its
`new_dev.address` member is not read). -/
def on_detach (driver_obj : class_driver_t) : Except Fault class_driver_t :=
  client_event_cb ⟨USB_HOST_CLIENT_EVENT_DEV_GONE, 0⟩ driver_obj

/-! ## The actions -/

/-- The C macro `assert(cond)`: the process ends when the condition is false. -/
def assert (cond : Bool) : Except Fault Unit :=
  if cond then .ok () else .error Fault.assert_failed

/-- Modelled from the spec: the macro `ESP_ERROR_CHECK` comes from the ESP-IDF
headers, which are not part of the repository. A call that returns an error
under it "is fatal and aborts the process" (spec, 4.1 and 7): any result other
than `ESP_OK` ends the process, `ESP_OK` lets the caller go on. -/
def ESP_ERROR_CHECK (err : Int) : Except Fault Unit :=
  if err = ESP_OK then .ok () else .error Fault.esp_error_check

/-- The value of the local `data` of `action_ccid_on` after the six
assignments (driver.hpp 99-105). -/
def ccid_on_data : usb_setup_custom_t :=
  { bmRequestType := 0x80, bRequest := 0x06, dIndex := 0x01, dType := 0x03,
    dLang := 0x0309, wLength := 0xff00 }

/-- The function `action_ccid_on` (driver.hpp 78-133). It does not write to the
session; its result is the transfer it submits. The results of the claim and
of the submit are printed only. A failed allocation leaves `ccid_on` null and
the `memcpy` then writes through it. -/
def action_ccid_on (r : usb_host_replies) (driver_obj : class_driver_t) :
    Except Fault usb_transfer_t :=
  if r.transfer_alloc then
    .ok { data_buffer := ccid_on_data.bytes
          num_bytes := USB_SETUP_PACKET_SIZE
          device_handle := driver_obj.dev_hdl
          bEndpointAddress := 0x81
          callback := none }
  else .error Fault.null_deref

/-- The function `action_open_dev` (driver.hpp 135-144). -/
def action_open_dev (r : usb_host_replies) (driver_obj : class_driver_t) :
    Except Fault class_driver_t :=
  assert (driver_obj.dev_addr != 0) >>= fun _ =>
    let opened : class_driver_t :=
      match r.device_open_hdl with
      | some h => { driver_obj with dev_hdl := h }
      | none => driver_obj
    .ok { opened with
            actions := flag_or (flag_clear opened.actions ACTION_OPEN_DEV) ACTION_GET_DEV_INFO }

/-- The function `action_get_info` (driver.hpp 146-155). -/
def action_get_info (r : usb_host_replies) (driver_obj : class_driver_t) :
    Except Fault class_driver_t :=
  assert (driver_obj.dev_hdl != NULL) >>= fun _ =>
  ESP_ERROR_CHECK r.device_info_err >>= fun _ =>
    .ok { driver_obj with
            actions := flag_or (flag_clear driver_obj.actions ACTION_GET_DEV_INFO)
              ACTION_GET_DEV_DESC }

/-- The function `action_get_dev_desc` (driver.hpp 157-164). -/
def action_get_dev_desc (r : usb_host_replies) (driver_obj : class_driver_t) :
    Except Fault class_driver_t :=
  assert (driver_obj.dev_hdl != NULL) >>= fun _ =>
  ESP_ERROR_CHECK r.get_device_descriptor_err >>= fun _ =>
    .ok { driver_obj with
            actions := flag_or (flag_clear driver_obj.actions ACTION_GET_DEV_DESC)
              ACTION_GET_CONFIG_DESC }

/-- The function `action_get_config_desc` (driver.hpp 166-173). -/
def action_get_config_desc (r : usb_host_replies) (driver_obj : class_driver_t) :
    Except Fault class_driver_t :=
  assert (driver_obj.dev_hdl != NULL) >>= fun _ =>
  ESP_ERROR_CHECK r.get_active_config_descriptor_err >>= fun _ =>
    .ok { driver_obj with
            actions := flag_or (flag_clear driver_obj.actions ACTION_GET_CONFIG_DESC)
              ACTION_GET_STR_DESC }

/-- The function `action_get_str_desc` (driver.hpp 175-183). -/
def action_get_str_desc (r : usb_host_replies) (driver_obj : class_driver_t) :
    Except Fault class_driver_t :=
  assert (driver_obj.dev_hdl != NULL) >>= fun _ =>
  ESP_ERROR_CHECK r.str_device_info_err >>= fun _ =>
    .ok { driver_obj with
            actions := flag_or (flag_clear driver_obj.actions ACTION_GET_STR_DESC)
              ACTION_CCID_ON }

/-- The function `action_close_dev` (driver.hpp 185-193). -/
def action_close_dev (r : usb_host_replies) (driver_obj : class_driver_t) :
    Except Fault class_driver_t :=
  ESP_ERROR_CHECK r.device_close_err >>= fun _ =>
    .ok { driver_obj with
            dev_hdl := NULL
            dev_addr := 0
            actions := flag_or (flag_clear driver_obj.actions ACTION_CLOSE_DEV)
              ACTION_RECONNECT }

/-! ## One pass of the loop -/

/-- The progress of one pass through the `else` branch of the loop body: the
session, the actions executed so far (oldest first), the transfers submitted,
and whether the `break` was taken. -/
structure pass_t where
  drv : class_driver_t
  trace : List action_t
  transfers : List usb_transfer_t
  stop : Bool
  deriving DecidableEq, Repr

/-- One guarded call `if (driver_obj.actions & FLAG) action(&driver_obj);`. -/
def guarded (f : action_t) (action : class_driver_t → Except Fault class_driver_t)
    (p : pass_t) : Except Fault pass_t :=
  if flag_set p.drv.actions f then
    match action p.drv with
    | .ok d => .ok { p with drv := d, trace := p.trace ++ [f] }
    | .error e => .error e
  else .ok p

/-- The guarded call `if (driver_obj.actions == ACTION_CCID_ON) action_ccid_on(&driver_obj);`. -/
def guarded_ccid_on (r : usb_host_replies) (p : pass_t) : Except Fault pass_t :=
  if p.drv.actions = ACTION_CCID_ON.val then
    match action_ccid_on r p.drv with
    | .ok t => .ok { p with trace := p.trace ++ [ACTION_CCID_ON], transfers := p.transfers ++ [t] }
    | .error e => .error e
  else .ok p

/-- The tail of the loop body (driver.hpp 247-254): the `break` on
`ACTION_EXIT`, otherwise the reset on `ACTION_RECONNECT`. -/
def exit_or_reconnect (p : pass_t) : pass_t :=
  if flag_set p.drv.actions ACTION_EXIT then
    { p with trace := p.trace ++ [ACTION_EXIT], stop := true }
  else if flag_set p.drv.actions ACTION_RECONNECT then
    { p with drv := { p.drv with actions := 0 }, trace := p.trace ++ [ACTION_RECONNECT] }
  else p

/-- The `else` branch of the loop body of `class_driver_task`
(driver.hpp 217-255): one scheduling pass. -/
def scheduling_pass (r : usb_host_replies) (driver_obj : class_driver_t) : Except Fault pass_t :=
  guarded ACTION_OPEN_DEV (action_open_dev r) ⟨driver_obj, [], [], false⟩
    >>= guarded ACTION_GET_DEV_INFO (action_get_info r)
    >>= guarded ACTION_GET_DEV_DESC (action_get_dev_desc r)
    >>= guarded ACTION_GET_CONFIG_DESC (action_get_config_desc r)
    >>= guarded ACTION_GET_STR_DESC (action_get_str_desc r)
    >>= guarded ACTION_CLOSE_DEV (action_close_dev r)
    >>= guarded_ccid_on r
    >>= fun p => .ok (exit_or_reconnect p)

/-- How a run of the loop ends. -/
inductive loop_end where
  | blocked (p : pass_t)
  | exited (p : pass_t)
  | fault (e : Fault)
  | out_of_fuel
  deriving DecidableEq, Repr

/-- The `while (1)` loop of `class_driver_task` (driver.hpp 211-256), run from
a session until it blocks in `usb_host_client_handle_events` (no action
pending), takes the `break`, or the process ends. Pass number `i` gets the
replies `rs i`; `acc` collects the trace and the transfers of the passes
already run. -/
def scheduling_loop (rs : Nat → usb_host_replies) :
    Nat → Nat → pass_t → loop_end
  | 0, _, _ => loop_end.out_of_fuel
  | fuel + 1, i, acc =>
    if acc.drv.actions = 0 then loop_end.blocked acc
    else
      match scheduling_pass (rs i) acc.drv with
      | .error e => loop_end.fault e
      | .ok p =>
        let acc1 : pass_t :=
          { drv := p.drv, trace := acc.trace ++ p.trace,
            transfers := acc.transfers ++ p.transfers, stop := p.stop }
        if p.stop then loop_end.exited acc1
        else scheduling_loop rs fuel (i + 1) acc1

/-- The function `class_driver_client_deregister` (driver.hpp 263-271), on the
session `s_driver_obj` points to; `unblock_err` is what
`usb_host_client_unblock` returns. -/
def class_driver_client_deregister (unblock_err : Int) (driver_obj : class_driver_t) :
    Except Fault class_driver_t :=
  let d : class_driver_t :=
    if driver_obj.dev_hdl ≠ NULL then { driver_obj with actions := ACTION_CLOSE_DEV.val }
    else driver_obj
  let d : class_driver_t := { d with actions := flag_or d.actions ACTION_EXIT }
  ESP_ERROR_CHECK unblock_err >>= fun _ => .ok d

/-- The session right after `class_driver_t driver_obj = {0}` and the
registration, which stores the client handle. -/
def idle (client_hdl : Nat) : class_driver_t :=
  { client_hdl := client_hdl, dev_addr := 0, dev_hdl := NULL, actions := 0 }

/-- The replies of a USB host library on which every call of the pass
succeeds, the open storing the handle `h`. -/
def replies_ok (h : Nat) : usb_host_replies :=
  { device_open_err := ESP_OK, device_open_hdl := some h, device_info_err := ESP_OK,
    get_device_descriptor_err := ESP_OK, get_active_config_descriptor_err := ESP_OK,
    str_device_info_err := ESP_OK, device_close_err := ESP_OK, transfer_alloc := true,
    interface_claim_err := ESP_OK, transfer_submit_err := ESP_OK }

/-- Every call of the pass succeeds and the open yields a non-null handle. -/
def all_succeed (r : usb_host_replies) : Prop :=
  r.device_open_err = ESP_OK ∧ r.device_open_hdl ≠ none ∧ r.device_open_hdl ≠ some NULL ∧
  r.device_info_err = ESP_OK ∧ r.get_device_descriptor_err = ESP_OK ∧
  r.get_active_config_descriptor_err = ESP_OK ∧ r.str_device_info_err = ESP_OK ∧
  r.device_close_err = ESP_OK ∧ r.transfer_alloc = true ∧
  r.interface_claim_err = ESP_OK ∧ r.transfer_submit_err = ESP_OK

instance (r : usb_host_replies) : Decidable (all_succeed r) := by
  unfold all_succeed; infer_instance

deriving instance DecidableEq for Except

/-! ## The session under a sequence of events -/

/-- What can happen to a session: a notification from the host library, a
shutdown request (with what `usb_host_client_unblock` returns), or one
iteration of the loop (with what the host library answers during it). -/
inductive session_event where
  | attach (address : Nat)
  | detach
  | shutdown (unblock_err : Int)
  | pass (r : usb_host_replies)
  deriving DecidableEq, Repr

/-- The task of `class_driver_task`: its session and whether the loop has
taken the `break`. -/
structure task_t where
  drv : class_driver_t
  exited : Bool
  deriving DecidableEq, Repr

/-- One iteration of the `while (1)` body: with no action pending the task
blocks in `usb_host_client_handle_events` and the session is as it was,
otherwise one scheduling pass runs. -/
def loop_iteration (r : usb_host_replies) (t : task_t) : Except Fault task_t :=
  if t.drv.actions = 0 then .ok t
  else
    match scheduling_pass r t.drv with
    | .ok p => .ok { drv := p.drv, exited := p.stop }
    | .error e => .error e

/-- The effect of one event on the task. Once the loop has exited the client
is deregistered and the task suspended: no callback and no iteration runs any
more, while `class_driver_client_deregister` still writes to the session. -/
def deliver (t : task_t) (e : session_event) : Except Fault task_t :=
  match e with
  | session_event.attach a =>
    if t.exited then .ok t
    else
      match on_attach a t.drv with
      | .ok d => .ok { t with drv := d }
      | .error f => .error f
  | session_event.detach =>
    if t.exited then .ok t
    else
      match on_detach t.drv with
      | .ok d => .ok { t with drv := d }
      | .error f => .error f
  | session_event.shutdown u =>
    match class_driver_client_deregister u t.drv with
    | .ok d => .ok { t with drv := d }
    | .error f => .error f
  | session_event.pass r => if t.exited then .ok t else loop_iteration r t

/-- The task after a sequence of events, oldest first. -/
def run_events : task_t → List session_event → Except Fault task_t
  | t, [] => .ok t
  | t, e :: es =>
    match deliver t e with
    | .ok t1 => run_events t1 es
    | .error f => .error f

/-- The position of the bit of a flag (`ACTION_CCID_ON` has none; `0` is a filler). -/
def action_t.bit : action_t → Nat
  | ACTION_CCID_ON => 0
  | ACTION_OPEN_DEV => 0
  | ACTION_GET_DEV_INFO => 1
  | ACTION_GET_DEV_DESC => 2
  | ACTION_GET_CONFIG_DESC => 3
  | ACTION_GET_STR_DESC => 4
  | ACTION_CLOSE_DEV => 5
  | ACTION_EXIT => 6
  | ACTION_RECONNECT => 7

/-- The session invariant: `dev_hdl` non-null only with `dev_addr` non-zero. -/
def session_inv (d : class_driver_t) : Prop :=
  d.dev_hdl ≠ NULL → d.dev_addr ≠ 0

instance (d : class_driver_t) : Decidable (session_inv d) := by
  unfold session_inv; infer_instance

/-! ## The pass in two parts, and its effect on the flags -/

/-- The first six guarded calls of the loop body (driver.hpp 219-242): the
pass up to, and without, the test `actions == ACTION_CCID_ON`. -/
def enumerate_and_close (r : usb_host_replies) (driver_obj : class_driver_t) :
    Except Fault pass_t :=
  guarded ACTION_OPEN_DEV (action_open_dev r) ⟨driver_obj, [], [], false⟩
    >>= guarded ACTION_GET_DEV_INFO (action_get_info r)
    >>= guarded ACTION_GET_DEV_DESC (action_get_dev_desc r)
    >>= guarded ACTION_GET_CONFIG_DESC (action_get_config_desc r)
    >>= guarded ACTION_GET_STR_DESC (action_get_str_desc r)
    >>= guarded ACTION_CLOSE_DEV (action_close_dev r)

/-- The two updates `actions &= ~own; actions |= next` that end an action. -/
def flag_step (own next : action_t) (actions : Nat) : Nat :=
  flag_or (flag_clear actions own) next

/-- The flags after one guarded call that returns: the two updates when the
flag `own` is pending, nothing otherwise. -/
def guarded_step (own next : action_t) (actions : Nat) : Nat :=
  if flag_set actions own then flag_step own next actions else actions

/-- The flags after the five guarded enumeration calls, when they return. -/
def enumerate_flags (actions : Nat) : Nat :=
  guarded_step ACTION_GET_STR_DESC ACTION_CCID_ON
    (guarded_step ACTION_GET_CONFIG_DESC ACTION_GET_STR_DESC
      (guarded_step ACTION_GET_DEV_DESC ACTION_GET_CONFIG_DESC
        (guarded_step ACTION_GET_DEV_INFO ACTION_GET_DEV_DESC
          (guarded_step ACTION_OPEN_DEV ACTION_GET_DEV_INFO actions))))

/-- The flags at the test `actions == ACTION_CCID_ON`, when the six guarded
calls before it return. -/
def drain_flags (actions : Nat) : Nat :=
  guarded_step ACTION_CLOSE_DEV ACTION_RECONNECT (enumerate_flags actions)

/-- The order in which the loop body tests the actions (driver.hpp 219-254). -/
def priority_order : List action_t :=
  [ACTION_OPEN_DEV, ACTION_GET_DEV_INFO, ACTION_GET_DEV_DESC, ACTION_GET_CONFIG_DESC,
   ACTION_GET_STR_DESC, ACTION_CLOSE_DEV, ACTION_CCID_ON, ACTION_EXIT, ACTION_RECONNECT]

/-! ## Conditions on a pass -/

/-- What holds of a pass in progress if no flag is pending: `GET_STR_DESC` has
run in it and the handle is non-null. -/
def sole_after_str_desc (p : pass_t) : Prop :=
  p.drv.actions = 0 → ACTION_GET_STR_DESC ∈ p.trace ∧ p.drv.dev_hdl ≠ NULL

/-- None of the four read flags is pending. -/
def no_read_pending (actions : Nat) : Prop :=
  flag_set actions ACTION_GET_DEV_INFO = false ∧ flag_set actions ACTION_GET_DEV_DESC = false ∧
  flag_set actions ACTION_GET_CONFIG_DESC = false ∧ flag_set actions ACTION_GET_STR_DESC = false

instance (actions : Nat) : Decidable (no_read_pending actions) := by
  unfold no_read_pending; infer_instance

/-- The assertions of the actions hold in a pass from this session, given an
open that stores a non-null handle: the address is non-zero if `OPEN_DEV` is
pending, and the handle is non-null if a read is pending without `OPEN_DEV`. -/
def asserts_hold (d : class_driver_t) : Prop :=
  (flag_set d.actions ACTION_OPEN_DEV = true → d.dev_addr ≠ 0) ∧
  (flag_set d.actions ACTION_OPEN_DEV = false → d.dev_hdl = NULL → no_read_pending d.actions)

instance (d : class_driver_t) : Decidable (asserts_hold d) := by
  unfold asserts_hold; infer_instance

/-- A pass in progress whose read actions cannot fail their assertion: the
handle is non-null or no read is pending. -/
def reads_safe (p : pass_t) : Prop :=
  p.drv.dev_hdl ≠ NULL ∨ no_read_pending p.drv.actions

/-- A session between two passes of a run without failed assertion: no read
pending, and a non-zero address if `OPEN_DEV` is pending. -/
def between_passes (d : class_driver_t) : Prop :=
  no_read_pending d.actions ∧ (flag_set d.actions ACTION_OPEN_DEV = true → d.dev_addr ≠ 0)

/-- The open call of the pass succeeds and stores a non-null handle. -/
def open_succeeds (r : usb_host_replies) : Prop :=
  r.device_open_err = ESP_OK ∧ r.device_open_hdl ≠ none ∧ r.device_open_hdl ≠ some NULL

instance (r : usb_host_replies) : Decidable (open_succeeds r) := by
  unfold open_succeeds; infer_instance

/-- A step of the pass that returns with `P`, or ends the process otherwise
than by a failed assertion, some call of the host library having failed. -/
def benign_with (P : pass_t → Prop) (r : usb_host_replies) (x : Except Fault pass_t) : Prop :=
  (∃ q, x = .ok q ∧ P q) ∨ (∃ e, x = .error e ∧ e ≠ Fault.assert_failed ∧ ¬ all_succeed r)

/-! ## Conditions on the events of a run -/

/-- An event of a run in which every attach carries a non-zero address and
every open succeeds with a non-null handle. -/
def event_well_formed : session_event → Prop
  | session_event.attach a => a ≠ 0
  | session_event.pass r => open_succeeds r
  | _ => True

instance (e : session_event) : Decidable (event_well_formed e) := by
  cases e <;> (unfold event_well_formed; infer_instance)

/-- An event other than a shutdown request. -/
def not_shutdown : session_event → Prop
  | session_event.shutdown _ => False
  | _ => True

instance (e : session_event) : Decidable (not_shutdown e) := by
  cases e <;> (unfold not_shutdown; infer_instance)

/-- The sessions a run of attach notifications, detach notifications and loop
iterations can be in: idle; attached and waiting for the open; or open, with
nothing or `CLOSE_DEV` pending. -/
def reach_shape (d : class_driver_t) : Prop :=
  (d.dev_addr = 0 ∧ d.dev_hdl = NULL ∧ d.actions = 0) ∨
  (d.dev_hdl = NULL ∧ d.actions = 0x01) ∨
  (d.dev_addr ≠ 0 ∧ d.dev_hdl ≠ NULL ∧ (d.actions = 0 ∨ d.actions = 0x20))

instance (d : class_driver_t) : Decidable (reach_shape d) := by
  unfold reach_shape; infer_instance

/-! ## The log of a run and the one-shot monitor -/

/-- What a run records: an attach notification that was accepted (taken under
`dev_addr == 0`), and each action a pass executed. -/
inductive log_entry where
  | accepted (address : Nat)
  | ran (a : action_t)
  deriving DecidableEq, Repr

/-- What one event adds to the log of the task it is delivered to. -/
def event_log (t : task_t) (e : session_event) : List log_entry :=
  match e with
  | session_event.attach a =>
    if t.exited = false ∧ t.drv.dev_addr = 0 then [log_entry.accepted a] else []
  | session_event.pass r =>
    if t.exited = false ∧ t.drv.actions ≠ 0 then
      match scheduling_pass r t.drv with
      | .ok p => p.trace.map log_entry.ran
      | .error _ => []
    else []
  | _ => []

/-- The task after a sequence of events, with the log of the run. -/
def run_log : task_t → List session_event → Except Fault (task_t × List log_entry)
  | t, [] => .ok (t, [])
  | t, e :: es =>
    match deliver t e with
    | .error f => .error f
    | .ok t1 =>
      match run_log t1 es with
      | .error f => .error f
      | .ok (t2, l) => .ok (t2, event_log t e ++ l)

/-- Where a device session stands with respect to `CCID_ON`: no attach
accepted since the last `CLOSE_DEV`; an attach accepted and `CCID_ON` not yet
run; `CCID_ON` run and the device not closed since. -/
inductive ccid_phase where
  | closed
  | armed
  | fired
  deriving DecidableEq, Repr

/-- The phase after one log entry; `none` when `CCID_ON` runs in a phase other
than `armed`, that is a second time in a device session or with no accepted
attach since the last `CLOSE_DEV`. -/
def ccid_phase.step : ccid_phase → log_entry → Option ccid_phase
  | ccid_phase.closed, log_entry.accepted _ => some ccid_phase.armed
  | ph, log_entry.accepted _ => some ph
  | ccid_phase.armed, log_entry.ran ACTION_CCID_ON => some ccid_phase.fired
  | _, log_entry.ran ACTION_CCID_ON => none
  | _, log_entry.ran ACTION_CLOSE_DEV => some ccid_phase.closed
  | ph, log_entry.ran _ => some ph

/-- The monitor run over a log: the phase at its end, `none` if `CCID_ON` ran
out of turn. -/
def one_shot : ccid_phase → List log_entry → Option ccid_phase
  | ph, [] => some ph
  | ph, x :: l =>
    match ph.step x with
    | some ph1 => one_shot ph1 l
    | none => none

/-- An event of a run of attach notifications, detach notifications and loop
iterations in which every call of the host library succeeds. -/
def event_succeeds : session_event → Prop
  | session_event.shutdown _ => False
  | session_event.pass r => all_succeed r
  | _ => True

instance (e : session_event) : Decidable (event_succeeds e) := by
  cases e <;> (unfold event_succeeds; infer_instance)

/-- The session and the phase of the monitor go together. -/
def coupled (d : class_driver_t) (ph : ccid_phase) : Prop :=
  (d.dev_addr = 0 ∧ d.dev_hdl = NULL ∧ d.actions = 0 ∧ ph = ccid_phase.closed) ∨
  (d.dev_hdl = NULL ∧ d.actions = 0x01 ∧ ph = ccid_phase.armed) ∨
  (d.dev_addr ≠ 0 ∧ d.dev_hdl ≠ NULL ∧ (d.actions = 0 ∨ d.actions = 0x20) ∧
    ph = ccid_phase.fired)

instance (d : class_driver_t) (ph : ccid_phase) : Decidable (coupled d ph) := by
  unfold coupled; infer_instance

/-! ## Flags as bits -/

theorem action_t.val_eq_two_pow (f : action_t) (hf : f ≠ ACTION_CCID_ON) :
    f.val = 2 ^ f.bit := by
  cases f <;> first | rfl | exact absurd rfl hf

theorem action_t.bit_lt (f : action_t) : f.bit < 32 := by
  cases f <;> decide

theorem and_two_pow_ne_zero (a k : Nat) : (a &&& 2 ^ k != 0) = a.testBit k := by
  cases hk : a.testBit k
  · have h0 : a &&& 2 ^ k = 0 := by
      apply Nat.eq_of_testBit_eq
      intro i
      by_cases hik : k = i
      · subst hik; simp [hk]
      · simp [Nat.testBit_two_pow, hik]
    simp [h0]
  · have h1 : (a &&& 2 ^ k).testBit k = true := by simp [hk, Nat.testBit_two_pow_self]
    have h2 : a &&& 2 ^ k ≠ 0 := by
      intro h0
      rw [h0] at h1
      simp at h1
    simpa using h2

theorem flag_set_eq_testBit (a : Nat) (f : action_t) (hf : f ≠ ACTION_CCID_ON) :
    flag_set a f = a.testBit f.bit := by
  unfold flag_set
  rw [action_t.val_eq_two_pow f hf, and_two_pow_ne_zero]

theorem flag_set_ccid_on (a : Nat) : flag_set a ACTION_CCID_ON = false := by
  simp [flag_set, action_t.val]

theorem testBit_flag_or (a : Nat) (f : action_t) (hf : f ≠ ACTION_CCID_ON) (i : Nat) :
    (flag_or a f).testBit i = (a.testBit i || decide (f.bit = i)) := by
  unfold flag_or
  rw [action_t.val_eq_two_pow f hf, Nat.testBit_or, Nat.testBit_two_pow]

theorem flag_or_ccid_on (a : Nat) : flag_or a ACTION_CCID_ON = a := by
  simp [flag_or, action_t.val]

theorem testBit_flag_clear (a : Nat) (f : action_t) (hf : f ≠ ACTION_CCID_ON) (i : Nat) :
    (flag_clear a f).testBit i = (a.testBit i && decide (i < 32) && !decide (f.bit = i)) := by
  unfold flag_clear
  have h32 : (0xFFFFFFFF : Nat) = 2 ^ 32 - 1 := by norm_num
  rw [action_t.val_eq_two_pow f hf, h32, Nat.testBit_and, Nat.testBit_xor,
    Nat.testBit_two_pow_sub_one, Nat.testBit_two_pow]
  have hb := action_t.bit_lt f
  by_cases h1 : i < 32 <;> by_cases h2 : f.bit = i <;> simp [h1, h2]
  omega

/-! ## The actions as case distinctions -/

theorem action_open_dev_eq (r : usb_host_replies) (d : class_driver_t) :
    action_open_dev r d =
      if d.dev_addr = 0 then .error Fault.assert_failed
      else
        let opened : class_driver_t :=
          match r.device_open_hdl with
          | some h => { d with dev_hdl := h }
          | none => d
        .ok { opened with
                actions := flag_or (flag_clear opened.actions ACTION_OPEN_DEV) ACTION_GET_DEV_INFO } := by
  by_cases h : d.dev_addr = 0 <;> simp [action_open_dev, assert, h, bind, Except.bind]

theorem action_get_info_eq (r : usb_host_replies) (d : class_driver_t) :
    action_get_info r d =
      if d.dev_hdl = NULL then .error Fault.assert_failed
      else if r.device_info_err ≠ ESP_OK then .error Fault.esp_error_check
      else .ok { d with
        actions := flag_or (flag_clear d.actions ACTION_GET_DEV_INFO) ACTION_GET_DEV_DESC } := by
  by_cases h : d.dev_hdl = NULL <;> by_cases e : r.device_info_err = ESP_OK <;>
    simp [action_get_info, assert, ESP_ERROR_CHECK, h, e, bind, Except.bind]

theorem action_get_dev_desc_eq (r : usb_host_replies) (d : class_driver_t) :
    action_get_dev_desc r d =
      if d.dev_hdl = NULL then .error Fault.assert_failed
      else if r.get_device_descriptor_err ≠ ESP_OK then .error Fault.esp_error_check
      else .ok { d with
        actions := flag_or (flag_clear d.actions ACTION_GET_DEV_DESC) ACTION_GET_CONFIG_DESC } := by
  by_cases h : d.dev_hdl = NULL <;> by_cases e : r.get_device_descriptor_err = ESP_OK <;>
    simp [action_get_dev_desc, assert, ESP_ERROR_CHECK, h, e, bind, Except.bind]

theorem action_get_config_desc_eq (r : usb_host_replies) (d : class_driver_t) :
    action_get_config_desc r d =
      if d.dev_hdl = NULL then .error Fault.assert_failed
      else if r.get_active_config_descriptor_err ≠ ESP_OK then .error Fault.esp_error_check
      else .ok { d with
        actions := flag_or (flag_clear d.actions ACTION_GET_CONFIG_DESC) ACTION_GET_STR_DESC } := by
  by_cases h : d.dev_hdl = NULL <;> by_cases e : r.get_active_config_descriptor_err = ESP_OK <;>
    simp [action_get_config_desc, assert, ESP_ERROR_CHECK, h, e, bind, Except.bind]

theorem action_get_str_desc_eq (r : usb_host_replies) (d : class_driver_t) :
    action_get_str_desc r d =
      if d.dev_hdl = NULL then .error Fault.assert_failed
      else if r.str_device_info_err ≠ ESP_OK then .error Fault.esp_error_check
      else .ok { d with
        actions := flag_or (flag_clear d.actions ACTION_GET_STR_DESC) ACTION_CCID_ON } := by
  by_cases h : d.dev_hdl = NULL <;> by_cases e : r.str_device_info_err = ESP_OK <;>
    simp [action_get_str_desc, assert, ESP_ERROR_CHECK, h, e, bind, Except.bind]

theorem action_close_dev_eq (r : usb_host_replies) (d : class_driver_t) :
    action_close_dev r d =
      if r.device_close_err ≠ ESP_OK then .error Fault.esp_error_check
      else .ok { d with
        dev_hdl := NULL
        dev_addr := 0
        actions := flag_or (flag_clear d.actions ACTION_CLOSE_DEV) ACTION_RECONNECT } := by
  by_cases e : r.device_close_err = ESP_OK <;>
    simp [action_close_dev, ESP_ERROR_CHECK, e, bind, Except.bind]

theorem class_driver_client_deregister_eq (u : Int) (d : class_driver_t) :
    class_driver_client_deregister u d =
      if u ≠ ESP_OK then .error Fault.esp_error_check
      else .ok { (if d.dev_hdl ≠ NULL then { d with actions := ACTION_CLOSE_DEV.val } else d) with
        actions := flag_or
          (if d.dev_hdl ≠ NULL then { d with actions := ACTION_CLOSE_DEV.val } else d).actions
          ACTION_EXIT } := by
  by_cases e : u = ESP_OK <;>
    simp [class_driver_client_deregister, ESP_ERROR_CHECK, e, bind, Except.bind]

/-! ## Helper evaluations -/

/-- The enumeration pass: from a session with only `ACTION_OPEN_DEV` pending,
a non-zero address and replies that all succeed, one pass runs the five
enumeration actions and `action_ccid_on`. -/
theorem scheduling_pass_enumerate (c N h : Nat) (r : usb_host_replies) (hN : N ≠ 0)
    (hr : all_succeed r) (hh : r.device_open_hdl = some h) :
    scheduling_pass r { client_hdl := c, dev_addr := N, dev_hdl := NULL, actions := 1 } =
      .ok { drv := { client_hdl := c, dev_addr := N, dev_hdl := h, actions := 0 }
            trace := [ACTION_OPEN_DEV, ACTION_GET_DEV_INFO, ACTION_GET_DEV_DESC,
                       ACTION_GET_CONFIG_DESC, ACTION_GET_STR_DESC, ACTION_CCID_ON]
            transfers := [{ data_buffer := [0x80, 0x06, 0x01, 0x03, 0x09, 0x03, 0x00, 0xFF]
                            num_bytes := 8, device_handle := h, bEndpointAddress := 0x81
                            callback := none }]
            stop := false } := by
  obtain ⟨_, _, h3, h4, h5, h6, h7, _, h9, _, _⟩ := hr
  have hnull : h ≠ NULL := by
    intro h0; subst h0; exact h3 hh
  simp +decide [scheduling_pass, guarded, guarded_ccid_on, exit_or_reconnect, action_open_dev_eq,
    action_get_info_eq, action_get_dev_desc_eq, action_get_config_desc_eq, action_get_str_desc_eq,
    action_ccid_on, flag_set, flag_or, flag_clear, action_t.val, hN, hh, hnull,
    h4, h5, h6, h7, h9, bind, Except.bind, ccid_on_data, usb_setup_custom_t.bytes,
    USB_SETUP_PACKET_SIZE]

/-! ## C1: a single attach drives the whole enumeration -/

/-- C1: with a host library that succeeds every call of the pass (the open
yielding a non-null handle `h`), an attach notification for a non-zero address
`N` delivered to the idle session, followed by the loop of `class_driver_task`
(any fuel of at least two iterations), executes exactly
`OPEN_DEV, GET_DEV_INFO, GET_DEV_DESC, GET_CONFIG_DESC, GET_STR_DESC, CCID_ON`,
once each and in that order, and the loop is then back in the blocking wait
with `actions = 0`, `dev_addr = N` and `dev_hdl = h` non-null. -/
theorem attach_enumerates_in_order (c N : Nat) (rs : Nat → usb_host_replies) (fuel : Nat)
    (hN : N ≠ 0) (hr : all_succeed (rs 0)) :
    ∃ d h, on_attach N (idle c) = .ok d ∧ (rs 0).device_open_hdl = some h ∧ h ≠ NULL ∧
      scheduling_loop rs (fuel + 2) 0 ⟨d, [], [], false⟩ =
        loop_end.blocked
          { drv := { client_hdl := c, dev_addr := N, dev_hdl := h, actions := 0 }
            trace := [ACTION_OPEN_DEV, ACTION_GET_DEV_INFO, ACTION_GET_DEV_DESC,
                       ACTION_GET_CONFIG_DESC, ACTION_GET_STR_DESC, ACTION_CCID_ON]
            transfers := [{ data_buffer := [0x80, 0x06, 0x01, 0x03, 0x09, 0x03, 0x00, 0xFF]
                            num_bytes := 8, device_handle := h, bEndpointAddress := 0x81
                            callback := none }]
            stop := false } := by
  have hsome : ∃ h, (rs 0).device_open_hdl = some h := by
    cases hopen : (rs 0).device_open_hdl with
    | none => exact absurd hopen hr.2.1
    | some h => exact ⟨h, rfl⟩
  obtain ⟨h, hh⟩ := hsome
  have hnull : h ≠ NULL := by
    intro h0; subst h0; exact hr.2.2.1 hh
  refine ⟨{ client_hdl := c, dev_addr := N, dev_hdl := NULL, actions := 1 }, h, ?_, hh, hnull, ?_⟩
  · simp [on_attach, client_event_cb, idle, flag_or, action_t.val]
  · simp [scheduling_loop, scheduling_pass_enumerate c N h (rs 0) hN hr hh]

/-- C1, at address 5 with the handle 7. -/
theorem attach_enumerates_in_order_witness :
    (5 ≠ 0 ∧ all_succeed (replies_ok 7)) ∧
    ∃ d h, on_attach 5 (idle 1) = .ok d ∧ (replies_ok 7).device_open_hdl = some h ∧ h ≠ NULL ∧
      scheduling_loop (fun _ => replies_ok 7) 2 0 ⟨d, [], [], false⟩ =
        loop_end.blocked
          { drv := { client_hdl := 1, dev_addr := 5, dev_hdl := h, actions := 0 }
            trace := [ACTION_OPEN_DEV, ACTION_GET_DEV_INFO, ACTION_GET_DEV_DESC,
                       ACTION_GET_CONFIG_DESC, ACTION_GET_STR_DESC, ACTION_CCID_ON]
            transfers := [{ data_buffer := [0x80, 0x06, 0x01, 0x03, 0x09, 0x03, 0x00, 0xFF]
                            num_bytes := 8, device_handle := h, bEndpointAddress := 0x81
                            callback := none }]
            stop := false } :=
  ⟨⟨by decide, by decide⟩,
   attach_enumerates_in_order 1 5 (fun _ => replies_ok 7) 0 (by decide) (by decide)⟩

/-! ## C2: the bytes of the CCID-on setup packet -/

/-- C2: the setup packet that `action_ccid_on` builds serialises, in the packed
little-endian layout, to the 8 bytes `80 06 01 03 09 03 00 FF` with no padding,
and whenever the transfer is allocated these are the bytes copied to the start
of its buffer, with `num_bytes = 8`, whatever the session and the other replies. -/
theorem ccid_on_packet_bytes :
    ccid_on_data.bytes = [0x80, 0x06, 0x01, 0x03, 0x09, 0x03, 0x00, 0xFF] ∧
    ccid_on_data.bytes.length = USB_SETUP_PACKET_SIZE ∧
    ∀ (r : usb_host_replies) (d : class_driver_t), r.transfer_alloc = true →
      ∃ t, action_ccid_on r d = .ok t ∧
        t.data_buffer = [0x80, 0x06, 0x01, 0x03, 0x09, 0x03, 0x00, 0xFF] ∧ t.num_bytes = 8 := by
  refine ⟨by decide, by decide, ?_⟩
  intro r d hr
  refine ⟨_, by simp only [action_ccid_on, hr, if_true]; rfl, rfl, rfl⟩

/-- C2, on two different sessions: the same bytes. -/
theorem ccid_on_packet_bytes_witness :
    (replies_ok 7).transfer_alloc = true ∧
    (∃ t, action_ccid_on (replies_ok 7) (idle 1) = .ok t ∧
        t.data_buffer = [0x80, 0x06, 0x01, 0x03, 0x09, 0x03, 0x00, 0xFF] ∧ t.num_bytes = 8) ∧
    (∃ t, action_ccid_on (replies_ok 7)
          { client_hdl := 4, dev_addr := 9, dev_hdl := 7, actions := 0 } = .ok t ∧
        t.data_buffer = [0x80, 0x06, 0x01, 0x03, 0x09, 0x03, 0x00, 0xFF] ∧ t.num_bytes = 8) :=
  ⟨by decide, ccid_on_packet_bytes.2.2 (replies_ok 7) (idle 1) (by decide),
   ccid_on_packet_bytes.2.2 (replies_ok 7) _ (by decide)⟩

/-! ## C3: the detach notification -/

/-- C3: for every session, a detach notification with `dev_hdl` non-null makes
the pending set exactly `{CLOSE_DEV}` (`actions = 0x20`), whatever was pending,
and leaves `dev_addr`, `dev_hdl` and `client_hdl` as they were; with `dev_hdl`
null it leaves the whole session as it was, so two detach notifications in a
row with no device open both change nothing, and the callback does not abort. -/
theorem on_detach_effect (d : class_driver_t) :
    (d.dev_hdl ≠ NULL →
      on_detach d = .ok { d with actions := 0x20 } ∧
      ∀ f, flag_set 0x20 f = true ↔ f = ACTION_CLOSE_DEV) ∧
    (d.dev_hdl = NULL →
      on_detach d = .ok d ∧ (on_detach d >>= on_detach) = .ok d) := by
  refine ⟨fun h => ⟨?_, ?_⟩, fun h => ?_⟩
  · simp [on_detach, client_event_cb, h, action_t.val]
  · intro f; cases f <;> decide
  · have h1 : on_detach d = .ok d := by simp [on_detach, client_event_cb, h]
    exact ⟨h1, by simp [h1, bind, Except.bind]⟩

/-- C3, on a session with an open device and three flags pending, and on the
idle session. -/
theorem on_detach_effect_witness :
    (({ client_hdl := 1, dev_addr := 5, dev_hdl := 7, actions := 0x1c } : class_driver_t).dev_hdl
        ≠ NULL ∧
      on_detach { client_hdl := 1, dev_addr := 5, dev_hdl := 7, actions := 0x1c } =
        .ok { client_hdl := 1, dev_addr := 5, dev_hdl := 7, actions := 0x20 }) ∧
    ((idle 1).dev_hdl = NULL ∧ on_detach (idle 1) = .ok (idle 1) ∧
      (on_detach (idle 1) >>= on_detach) = .ok (idle 1)) :=
  ⟨⟨by decide,
    ((on_detach_effect { client_hdl := 1, dev_addr := 5, dev_hdl := 7, actions := 0x1c }).1
      (by decide)).1⟩,
   ⟨rfl, (on_detach_effect (idle 1)).2 rfl⟩⟩

/-! ## C4: the attach notification -/

/-- C4: for every session and address `A`, an attach notification with
`dev_addr = 0` records `A` and sets `OPEN_DEV`, every other flag (every other
bit of `actions`), `dev_hdl` and `client_hdl` staying as they were; with
`dev_addr ≠ 0` the whole session is unchanged. -/
theorem on_attach_effect (A : Nat) (d : class_driver_t) :
    (d.dev_addr = 0 →
      ∃ d1, on_attach A d = .ok d1 ∧ d1.dev_addr = A ∧ d1.dev_hdl = d.dev_hdl ∧
        d1.client_hdl = d.client_hdl ∧ d1.actions = d.actions ||| 0x01 ∧
        flag_set d1.actions ACTION_OPEN_DEV = true ∧
        (∀ f, f ≠ ACTION_OPEN_DEV → flag_set d1.actions f = flag_set d.actions f) ∧
        (∀ i, i ≠ 0 → d1.actions.testBit i = d.actions.testBit i)) ∧
    (d.dev_addr ≠ 0 → on_attach A d = .ok d) := by
  refine ⟨fun h => ?_, fun h => by simp [on_attach, client_event_cb, h]⟩
  refine ⟨{ d with dev_addr := A, actions := flag_or d.actions ACTION_OPEN_DEV }, ?_, rfl, rfl,
    rfl, rfl, ?_, ?_, ?_⟩
  · simp [on_attach, client_event_cb, h]
  · rw [flag_set_eq_testBit _ _ (by decide), testBit_flag_or _ _ (by decide)]
    simp [action_t.bit]
  · intro f hf
    by_cases hc : f = ACTION_CCID_ON
    · subst hc; simp [flag_set_ccid_on]
    · rw [flag_set_eq_testBit _ _ hc, flag_set_eq_testBit _ _ hc, testBit_flag_or _ _ (by decide)]
      have : action_t.bit ACTION_OPEN_DEV ≠ f.bit := by
        cases f <;> first | decide | exact absurd rfl hf | exact absurd rfl hc
      simp [this]
  · intro i hi
    show (flag_or d.actions ACTION_OPEN_DEV).testBit i = _
    rw [testBit_flag_or _ _ (by decide)]
    have : action_t.bit ACTION_OPEN_DEV ≠ i := fun h0 => hi (h0 ▸ rfl)
    simp [this]

/-- C4, on the idle session and on a session that tracks address 5. -/
theorem on_attach_effect_witness :
    ((idle 1).dev_addr = 0 ∧
      ∃ d1, on_attach 9 (idle 1) = .ok d1 ∧ d1.dev_addr = 9 ∧ d1.dev_hdl = (idle 1).dev_hdl ∧
        d1.client_hdl = (idle 1).client_hdl ∧ d1.actions = (idle 1).actions ||| 0x01 ∧
        flag_set d1.actions ACTION_OPEN_DEV = true ∧
        (∀ f, f ≠ ACTION_OPEN_DEV → flag_set d1.actions f = flag_set (idle 1).actions f) ∧
        (∀ i, i ≠ 0 → d1.actions.testBit i = (idle 1).actions.testBit i)) ∧
    (({ client_hdl := 1, dev_addr := 5, dev_hdl := 7, actions := 0 } : class_driver_t).dev_addr ≠ 0
      ∧ on_attach 9 { client_hdl := 1, dev_addr := 5, dev_hdl := 7, actions := 0 } =
        .ok { client_hdl := 1, dev_addr := 5, dev_hdl := 7, actions := 0 }) :=
  ⟨⟨rfl, (on_attach_effect 9 (idle 1)).1 rfl⟩,
   ⟨by decide, (on_attach_effect 9 _).2 (by decide)⟩⟩

/-! ## C5: an open handle implies a tracked address -/

theorem bind_eq_ok {α β : Type} {x : Except Fault α} {f : α → Except Fault β} {b : β}
    (h : (x >>= f) = .ok b) : ∃ a, x = .ok a ∧ f a = .ok b := by
  cases x with
  | error e => simp [bind, Except.bind] at h
  | ok a => exact ⟨a, rfl, by simpa [bind, Except.bind] using h⟩

theorem guarded_inv (f : action_t) (action : class_driver_t → Except Fault class_driver_t)
    (hact : ∀ d d1, session_inv d → action d = .ok d1 → session_inv d1)
    (p p1 : pass_t) (hp : session_inv p.drv) (h : guarded f action p = .ok p1) :
    session_inv p1.drv := by
  unfold guarded at h
  split at h
  · cases hres : action p.drv with
    | error e => simp [hres] at h
    | ok d1 =>
      simp only [hres, Except.ok.injEq] at h
      subst h
      exact hact _ _ hp hres
  · simp only [Except.ok.injEq] at h
    subst h
    exact hp

theorem action_open_dev_inv (r : usb_host_replies) (d d1 : class_driver_t)
    (h : action_open_dev r d = .ok d1) : session_inv d1 := by
  rw [action_open_dev_eq] at h
  split at h
  · simp at h
  · rename_i haddr
    simp only [Except.ok.injEq] at h
    subst h
    intro _
    cases r.device_open_hdl <;> exact haddr

theorem action_get_info_inv (r : usb_host_replies) (d d1 : class_driver_t)
    (hd : session_inv d) (h : action_get_info r d = .ok d1) : session_inv d1 := by
  rw [action_get_info_eq] at h
  split at h
  · simp at h
  · split at h
    · simp at h
    · simp only [Except.ok.injEq] at h
      subst h
      exact hd

theorem action_get_dev_desc_inv (r : usb_host_replies) (d d1 : class_driver_t)
    (hd : session_inv d) (h : action_get_dev_desc r d = .ok d1) : session_inv d1 := by
  rw [action_get_dev_desc_eq] at h
  split at h
  · simp at h
  · split at h
    · simp at h
    · simp only [Except.ok.injEq] at h
      subst h
      exact hd

theorem action_get_config_desc_inv (r : usb_host_replies) (d d1 : class_driver_t)
    (hd : session_inv d) (h : action_get_config_desc r d = .ok d1) : session_inv d1 := by
  rw [action_get_config_desc_eq] at h
  split at h
  · simp at h
  · split at h
    · simp at h
    · simp only [Except.ok.injEq] at h
      subst h
      exact hd

theorem action_get_str_desc_inv (r : usb_host_replies) (d d1 : class_driver_t)
    (hd : session_inv d) (h : action_get_str_desc r d = .ok d1) : session_inv d1 := by
  rw [action_get_str_desc_eq] at h
  split at h
  · simp at h
  · split at h
    · simp at h
    · simp only [Except.ok.injEq] at h
      subst h
      exact hd

theorem action_close_dev_inv (r : usb_host_replies) (d d1 : class_driver_t)
    (h : action_close_dev r d = .ok d1) : session_inv d1 := by
  rw [action_close_dev_eq] at h
  split at h
  · simp at h
  · simp only [Except.ok.injEq] at h
    subst h
    intro hn
    exact absurd rfl hn

theorem guarded_ccid_on_drv (r : usb_host_replies) (p p1 : pass_t)
    (h : guarded_ccid_on r p = .ok p1) : p1.drv = p.drv := by
  unfold guarded_ccid_on at h
  split at h
  · cases hres : action_ccid_on r p.drv with
    | error e => simp [hres] at h
    | ok t =>
      simp only [hres, Except.ok.injEq] at h
      subst h
      rfl
  · simp only [Except.ok.injEq] at h
    subst h
    rfl

theorem exit_or_reconnect_inv (p : pass_t) (hp : session_inv p.drv) :
    session_inv (exit_or_reconnect p).drv := by
  unfold exit_or_reconnect
  split
  · exact hp
  · split
    · exact hp
    · exact hp

theorem scheduling_pass_inv (r : usb_host_replies) (d : class_driver_t) (p : pass_t)
    (hd : session_inv d) (h : scheduling_pass r d = .ok p) : session_inv p.drv := by
  unfold scheduling_pass at h
  obtain ⟨p7, h, h8⟩ := bind_eq_ok h
  obtain ⟨p6, h, h7⟩ := bind_eq_ok h
  obtain ⟨p5, h, h6⟩ := bind_eq_ok h
  obtain ⟨p4, h, h5⟩ := bind_eq_ok h
  obtain ⟨p3, h, h4⟩ := bind_eq_ok h
  obtain ⟨p2, h, h3⟩ := bind_eq_ok h
  obtain ⟨p1, h1, h2⟩ := bind_eq_ok h
  have i1 := guarded_inv _ _ (fun a b _ hab => action_open_dev_inv r a b hab) _ _ hd h1
  have i2 := guarded_inv _ _ (action_get_info_inv r) _ _ i1 h2
  have i3 := guarded_inv _ _ (action_get_dev_desc_inv r) _ _ i2 h3
  have i4 := guarded_inv _ _ (action_get_config_desc_inv r) _ _ i3 h4
  have i5 := guarded_inv _ _ (action_get_str_desc_inv r) _ _ i4 h5
  have i6 := guarded_inv _ _ (fun a b _ hab => action_close_dev_inv r a b hab) _ _ i5 h6
  have i7 : session_inv p7.drv := by rw [guarded_ccid_on_drv r _ _ h7]; exact i6
  simp only [Except.ok.injEq] at h8
  subst h8
  exact exit_or_reconnect_inv _ i7

theorem client_event_cb_inv (m : usb_host_client_event_msg_t) (d d1 : class_driver_t)
    (hd : session_inv d) (h : client_event_cb m d = .ok d1) : session_inv d1 := by
  unfold client_event_cb at h
  split at h
  · split at h
    · rename_i haddr
      simp only [Except.ok.injEq] at h
      subst h
      intro hn
      have : d.dev_hdl = NULL := by
        by_contra hne
        exact hd hne haddr
      exact absurd this hn
    · simp only [Except.ok.injEq] at h
      subst h
      exact hd
  · split at h
    · simp only [Except.ok.injEq] at h
      subst h
      exact hd
    · simp only [Except.ok.injEq] at h
      subst h
      exact hd
  · simp at h

theorem class_driver_client_deregister_inv (u : Int) (d d1 : class_driver_t)
    (hd : session_inv d) (h : class_driver_client_deregister u d = .ok d1) : session_inv d1 := by
  rw [class_driver_client_deregister_eq] at h
  simp only at h
  split at h
  · simp at h
  · simp only [Except.ok.injEq] at h
    subst h
    by_cases hn : d.dev_hdl ≠ NULL
    · simpa [hn] using hd
    · simpa [hn] using hd

theorem deliver_inv (t t1 : task_t) (e : session_event) (ht : session_inv t.drv)
    (h : deliver t e = .ok t1) : session_inv t1.drv := by
  cases e with
  | attach a =>
    simp only [deliver] at h
    split at h
    · simp only [Except.ok.injEq] at h; subst h; exact ht
    · cases hres : on_attach a t.drv with
      | error f => simp [hres] at h
      | ok d =>
        simp only [hres, Except.ok.injEq] at h
        subst h
        exact client_event_cb_inv _ _ _ ht hres
  | detach =>
    simp only [deliver] at h
    split at h
    · simp only [Except.ok.injEq] at h; subst h; exact ht
    · cases hres : on_detach t.drv with
      | error f => simp [hres] at h
      | ok d =>
        simp only [hres, Except.ok.injEq] at h
        subst h
        exact client_event_cb_inv _ _ _ ht hres
  | shutdown u =>
    simp only [deliver] at h
    cases hres : class_driver_client_deregister u t.drv with
    | error f => simp [hres] at h
    | ok d =>
      simp only [hres, Except.ok.injEq] at h
      subst h
      exact class_driver_client_deregister_inv _ _ _ ht hres
  | pass r =>
    simp only [deliver] at h
    split at h
    · simp only [Except.ok.injEq] at h; subst h; exact ht
    · unfold loop_iteration at h
      split at h
      · simp only [Except.ok.injEq] at h; subst h; exact ht
      · cases hres : scheduling_pass r t.drv with
        | error f => simp [hres] at h
        | ok p =>
          simp only [hres, Except.ok.injEq] at h
          subst h
          exact scheduling_pass_inv _ _ _ ht hres

theorem run_events_inv (es : List session_event) (t t1 : task_t) (ht : session_inv t.drv)
    (h : run_events t es = .ok t1) : session_inv t1.drv := by
  induction es generalizing t with
  | nil =>
    simp only [run_events, Except.ok.injEq] at h
    subst h
    exact ht
  | cons e es ih =>
    simp only [run_events] at h
    cases hres : deliver t e with
    | error f => simp [hres] at h
    | ok t2 =>
      simp only [hres] at h
      exact ih t2 (deliver_inv _ _ _ ht hres) h

/-- C5: from the idle session, after every finite sequence of attach
notifications (any address), detach notifications, shutdown requests and loop
iterations (whatever the host library answers), the session reached has
`dev_hdl` non-null only if `dev_addr` is non-zero. -/
theorem handle_implies_address (c : Nat) (es : List session_event) (t : task_t)
    (hrun : run_events ⟨idle c, false⟩ es = .ok t) (hh : t.drv.dev_hdl ≠ NULL) :
    t.drv.dev_addr ≠ 0 :=
  run_events_inv es _ t (fun hn => absurd rfl hn) hrun hh

/-- C5, after an attach at address 5 and the enumeration pass. -/
theorem handle_implies_address_witness :
    run_events ⟨idle 1, false⟩ [session_event.attach 5, session_event.pass (replies_ok 7)] =
      .ok ⟨{ client_hdl := 1, dev_addr := 5, dev_hdl := 7, actions := 0 }, false⟩ ∧
    (7 : Nat) ≠ NULL ∧ (5 : Nat) ≠ 0 :=
  ⟨by decide, by decide,
   handle_implies_address 1 [session_event.attach 5, session_event.pass (replies_ok 7)]
     ⟨{ client_hdl := 1, dev_addr := 5, dev_hdl := 7, actions := 0 }, false⟩
     (by decide) (by decide)⟩

/-! ## C6: shutdown with a device open -/

/-- C6, counterexample: on a session with a device open (handle 7, address 5),
the shutdown request arms `CLOSE_DEV` and `EXIT`, and when the close call of
the next pass returns `ESP_FAIL` its `ESP_ERROR_CHECK` ends the process: the
pass neither resets `dev_hdl` and `dev_addr` nor reaches the `break`. The
claim ranges over every session with a handle: on the one with handle 7 and
`dev_addr = 0`, an attach for address 0 between the request and the pass is
accepted, and the pass ends in the assertion of `action_open_dev` even though
every call succeeds. -/
theorem shutdown_pass_close_failure :
    ({ client_hdl := 1, dev_addr := 5, dev_hdl := 7, actions := 0 } : class_driver_t).dev_hdl
      ≠ NULL ∧
    class_driver_client_deregister ESP_OK
        { client_hdl := 1, dev_addr := 5, dev_hdl := 7, actions := 0 } =
      .ok { client_hdl := 1, dev_addr := 5, dev_hdl := 7, actions := 0x60 } ∧
    scheduling_pass { replies_ok 7 with device_close_err := ESP_FAIL }
        { client_hdl := 1, dev_addr := 5, dev_hdl := 7, actions := 0x60 } =
      .error Fault.esp_error_check ∧
    (class_driver_client_deregister ESP_OK
          { client_hdl := 1, dev_addr := 0, dev_hdl := 7, actions := 0 }
        >>= on_attach 0 >>= scheduling_pass (replies_ok 8)) =
      .error Fault.assert_failed := by
  decide

/-- C6, amended: for every session with `dev_hdl` non-null, when the unblock
call of the shutdown request and the close call of the next pass succeed, the
shutdown request followed by the pass executes `CLOSE_DEV` (`dev_hdl` and
`dev_addr` reset) and then stops the loop on `EXIT`, in that one pass. The same
holds with an attach notification between the two: it is ignored when a device
is tracked (`dev_addr ≠ 0`); when it is accepted (`dev_addr = 0`), its address
being non-zero and every call of the pass succeeding, the pass first runs the
five enumeration actions, then `CLOSE_DEV`, then stops on `EXIT`. -/
theorem shutdown_closes_before_exit (d : class_driver_t) (r : usb_host_replies)
    (hh : d.dev_hdl ≠ NULL) (hclose : r.device_close_err = ESP_OK) :
    (class_driver_client_deregister ESP_OK d >>= scheduling_pass r) =
      .ok { drv := { d with dev_hdl := NULL, dev_addr := 0, actions := 0xC0 }
            trace := [ACTION_CLOSE_DEV, ACTION_EXIT], transfers := [], stop := true } ∧
    ∀ A,
      (d.dev_addr ≠ 0 →
        (class_driver_client_deregister ESP_OK d >>= on_attach A >>= scheduling_pass r) =
          .ok { drv := { d with dev_hdl := NULL, dev_addr := 0, actions := 0xC0 }
                trace := [ACTION_CLOSE_DEV, ACTION_EXIT], transfers := [], stop := true }) ∧
      (d.dev_addr = 0 → A ≠ 0 → all_succeed r →
        (class_driver_client_deregister ESP_OK d >>= on_attach A >>= scheduling_pass r) =
          .ok { drv := { d with dev_hdl := NULL, dev_addr := 0, actions := 0xC0 }
                trace := [ACTION_OPEN_DEV, ACTION_GET_DEV_INFO, ACTION_GET_DEV_DESC,
                           ACTION_GET_CONFIG_DESC, ACTION_GET_STR_DESC, ACTION_CLOSE_DEV,
                           ACTION_EXIT]
                transfers := [], stop := true }) := by
  obtain ⟨c, a, h, acts⟩ := d
  simp only at hh
  have hdereg : class_driver_client_deregister ESP_OK
      { client_hdl := c, dev_addr := a, dev_hdl := h, actions := acts } =
      .ok { client_hdl := c, dev_addr := a, dev_hdl := h, actions := 0x60 } := by
    simp +decide [class_driver_client_deregister_eq, hh, flag_or, action_t.val]
  have hpass : ∀ a1, scheduling_pass r
      { client_hdl := c, dev_addr := a1, dev_hdl := h, actions := 0x60 } =
      .ok { drv := { client_hdl := c, dev_addr := 0, dev_hdl := NULL, actions := 0xC0 }
            trace := [ACTION_CLOSE_DEV, ACTION_EXIT], transfers := [], stop := true } := by
    intro a1
    simp +decide [scheduling_pass, guarded, guarded_ccid_on, exit_or_reconnect,
      action_close_dev_eq, flag_set, flag_or, flag_clear, action_t.val, hclose, bind, Except.bind]
  refine ⟨?_, fun A => ⟨fun ha => ?_, fun ha hA hr => ?_⟩⟩
  · simp only [hdereg, bind, Except.bind]
    exact hpass a
  · simp only at ha
    have hatt : on_attach A { client_hdl := c, dev_addr := a, dev_hdl := h, actions := 0x60 } =
        .ok { client_hdl := c, dev_addr := a, dev_hdl := h, actions := 0x60 } := by
      simp [on_attach, client_event_cb, ha]
    simp only [hdereg, hatt, bind, Except.bind]
    exact hpass a
  · simp only at ha
    subst ha
    have hatt : on_attach A { client_hdl := c, dev_addr := 0, dev_hdl := h, actions := 0x60 } =
        .ok { client_hdl := c, dev_addr := A, dev_hdl := h, actions := 0x61 } := by
      simp +decide [on_attach, client_event_cb, flag_or, action_t.val]
    obtain ⟨_, h2, h3, h4, h5, h6, h7, _, _, _, _⟩ := hr
    cases hopen : r.device_open_hdl with
    | none => exact absurd hopen h2
    | some k =>
      have hk : k ≠ NULL := by
        intro h0; subst h0; exact h3 hopen
      simp only [hdereg, hatt, bind, Except.bind]
      simp +decide [scheduling_pass, guarded, guarded_ccid_on, exit_or_reconnect,
        action_open_dev_eq, action_get_info_eq, action_get_dev_desc_eq, action_get_config_desc_eq,
        action_get_str_desc_eq, action_close_dev_eq, flag_set, flag_or, flag_clear, action_t.val,
        hA, hopen, hk, h4, h5, h6, h7, hclose, bind, Except.bind]

/-- C6 amended, on a session with handle 7 at address 5, without and with an
attach for address 9 in between, and on a session with handle 7 and no
address, where the attach is accepted. -/
theorem shutdown_closes_before_exit_witness :
    (({ client_hdl := 1, dev_addr := 5, dev_hdl := 7, actions := 0 } : class_driver_t).dev_hdl
        ≠ NULL ∧ (replies_ok 8).device_close_err = ESP_OK) ∧
    (class_driver_client_deregister ESP_OK
          { client_hdl := 1, dev_addr := 5, dev_hdl := 7, actions := 0 }
        >>= scheduling_pass (replies_ok 8)) =
      .ok { drv := { client_hdl := 1, dev_addr := 0, dev_hdl := NULL, actions := 0xC0 }
            trace := [ACTION_CLOSE_DEV, ACTION_EXIT], transfers := [], stop := true } ∧
    (class_driver_client_deregister ESP_OK
          { client_hdl := 1, dev_addr := 5, dev_hdl := 7, actions := 0 }
        >>= on_attach 9 >>= scheduling_pass (replies_ok 8)) =
      .ok { drv := { client_hdl := 1, dev_addr := 0, dev_hdl := NULL, actions := 0xC0 }
            trace := [ACTION_CLOSE_DEV, ACTION_EXIT], transfers := [], stop := true } ∧
    (class_driver_client_deregister ESP_OK
          { client_hdl := 1, dev_addr := 0, dev_hdl := 7, actions := 0 }
        >>= on_attach 9 >>= scheduling_pass (replies_ok 8)) =
      .ok { drv := { client_hdl := 1, dev_addr := 0, dev_hdl := NULL, actions := 0xC0 }
            trace := [ACTION_OPEN_DEV, ACTION_GET_DEV_INFO, ACTION_GET_DEV_DESC,
                       ACTION_GET_CONFIG_DESC, ACTION_GET_STR_DESC, ACTION_CLOSE_DEV,
                       ACTION_EXIT]
            transfers := [], stop := true } :=
  ⟨⟨by decide, by decide⟩,
   (shutdown_closes_before_exit { client_hdl := 1, dev_addr := 5, dev_hdl := 7, actions := 0 }
      (replies_ok 8) (by decide) (by decide)).1,
   ((shutdown_closes_before_exit { client_hdl := 1, dev_addr := 5, dev_hdl := 7, actions := 0 }
      (replies_ok 8) (by decide) (by decide)).2 9).1 (by decide),
   ((shutdown_closes_before_exit { client_hdl := 1, dev_addr := 0, dev_hdl := 7, actions := 0 }
      (replies_ok 8) (by decide) (by decide)).2 9).2 rfl (by decide) (by decide)⟩

/-! ## C7: detach while enumeration flags are pending -/

/-- C7, counterexample: right after an attach for address 5 (`OPEN_DEV`
pending, the device not opened yet) a detach notification changes nothing: the
pending set stays `{OPEN_DEV}` and is not `{CLOSE_DEV}`. -/
theorem detach_before_open_keeps_flags :
    on_attach 5 (idle 1) = .ok { client_hdl := 1, dev_addr := 5, dev_hdl := NULL, actions := 1 } ∧
    flag_set 1 ACTION_OPEN_DEV = true ∧
    on_detach { client_hdl := 1, dev_addr := 5, dev_hdl := NULL, actions := 1 } =
      .ok { client_hdl := 1, dev_addr := 5, dev_hdl := NULL, actions := 1 } ∧
    (1 : Nat) ≠ ACTION_CLOSE_DEV.val := by
  decide

/-- C7, amended: for every session in which an enumeration flag is pending and
`dev_hdl` is non-null, a detach notification leaves the pending set exactly
`{CLOSE_DEV}`, every other flag discarded, the handles as they were; with
`dev_hdl` null the detach leaves the session, pending flags included, as it was. -/
theorem detach_overrides_enumeration (d : class_driver_t)
    (_hpend : flag_set d.actions ACTION_OPEN_DEV = true ∨
      flag_set d.actions ACTION_GET_DEV_INFO = true ∨
      flag_set d.actions ACTION_GET_DEV_DESC = true ∨
      flag_set d.actions ACTION_GET_CONFIG_DESC = true ∨
      flag_set d.actions ACTION_GET_STR_DESC = true) :
    (d.dev_hdl ≠ NULL →
      ∃ d1, on_detach d = .ok d1 ∧ d1.actions = ACTION_CLOSE_DEV.val ∧
        (∀ f, flag_set d1.actions f = true ↔ f = ACTION_CLOSE_DEV) ∧
        d1.dev_addr = d.dev_addr ∧ d1.dev_hdl = d.dev_hdl ∧ d1.client_hdl = d.client_hdl) ∧
    (d.dev_hdl = NULL → on_detach d = .ok d) := by
  refine ⟨fun h => ⟨{ d with actions := ACTION_CLOSE_DEV.val }, ?_, rfl, ?_, rfl, rfl, rfl⟩,
    fun h => by simp [on_detach, client_event_cb, h]⟩
  · simp [on_detach, client_event_cb, h]
  · intro f
    show flag_set ACTION_CLOSE_DEV.val f = true ↔ f = ACTION_CLOSE_DEV
    cases f <;> decide

/-- C7 amended, on a session with handle 7 and three enumeration flags pending. -/
theorem detach_overrides_enumeration_witness :
    (flag_set 0x1c ACTION_GET_DEV_DESC = true ∧ (7 : Nat) ≠ NULL) ∧
    ∃ d1, on_detach { client_hdl := 1, dev_addr := 5, dev_hdl := 7, actions := 0x1c } = .ok d1 ∧
      d1.actions = ACTION_CLOSE_DEV.val ∧
      (∀ f, flag_set d1.actions f = true ↔ f = ACTION_CLOSE_DEV) ∧
      d1.dev_addr = 5 ∧ d1.dev_hdl = 7 ∧ d1.client_hdl = 1 :=
  ⟨⟨by decide, by decide⟩,
   (detach_overrides_enumeration { client_hdl := 1, dev_addr := 5, dev_hdl := 7, actions := 0x1c }
      (Or.inr (Or.inr (Or.inl (by decide))))).1 (by decide)⟩

/-! ## C8: a failed open -/

/-- C8: what the code does where the claim asks for the step not to advance.
On the session right after an attach for address 5 (`OPEN_DEV` pending, no
handle), with an open call that returns `ESP_FAIL` and stores no handle,
`action_open_dev` tests the error, prints, and still clears `OPEN_DEV` and
sets `GET_DEV_INFO`; the same pass then runs `action_get_info` on the null
handle and ends in its own assertion `dev_hdl != NULL`. With the open
succeeding on the same session the step advances as the claim says. -/
theorem open_failure_advances :
    ({ replies_ok 7 with device_open_err := ESP_FAIL, device_open_hdl := none }
      : usb_host_replies).device_open_err ≠ ESP_OK ∧
    action_open_dev { replies_ok 7 with device_open_err := ESP_FAIL, device_open_hdl := none }
        { client_hdl := 1, dev_addr := 5, dev_hdl := NULL, actions := 0x01 } =
      .ok { client_hdl := 1, dev_addr := 5, dev_hdl := NULL, actions := 0x02 } ∧
    flag_set 0x02 ACTION_OPEN_DEV = false ∧ flag_set 0x02 ACTION_GET_DEV_INFO = true ∧
    action_get_info { replies_ok 7 with device_open_err := ESP_FAIL, device_open_hdl := none }
        { client_hdl := 1, dev_addr := 5, dev_hdl := NULL, actions := 0x02 } =
      .error Fault.assert_failed ∧
    scheduling_pass { replies_ok 7 with device_open_err := ESP_FAIL, device_open_hdl := none }
        { client_hdl := 1, dev_addr := 5, dev_hdl := NULL, actions := 0x01 } =
      .error Fault.assert_failed ∧
    action_open_dev (replies_ok 7)
        { client_hdl := 1, dev_addr := 5, dev_hdl := NULL, actions := 0x01 } =
      .ok { client_hdl := 1, dev_addr := 5, dev_hdl := 7, actions := 0x02 } := by
  decide

/-! ## C9: teardown after a detach -/

/-- C9: for every session with `dev_hdl` non-null and the pending set exactly
`{CLOSE_DEV}`, the close call succeeding, one scheduling pass executes
`CLOSE_DEV` and then `RECONNECT` and nothing else (no `CCID_ON`, no `EXIT`): it
ends with `dev_hdl = NULL`, `dev_addr = 0`, `actions = 0` and the loop not
stopped, so the loop blocks again; an attach notification for any address `M`
then records `M` and leaves exactly `OPEN_DEV` pending. -/
theorem teardown_returns_to_idle (d : class_driver_t) (r : usb_host_replies)
    (_hh : d.dev_hdl ≠ NULL) (ha : d.actions = ACTION_CLOSE_DEV.val)
    (hclose : r.device_close_err = ESP_OK) :
    scheduling_pass r d =
      .ok { drv := { d with dev_hdl := NULL, dev_addr := 0, actions := 0 }
            trace := [ACTION_CLOSE_DEV, ACTION_RECONNECT], transfers := [], stop := false } ∧
    (∀ (rs : Nat → usb_host_replies) (fuel : Nat), rs 0 = r →
      scheduling_loop rs (fuel + 2) 0 ⟨d, [], [], false⟩ =
        loop_end.blocked
          { drv := { d with dev_hdl := NULL, dev_addr := 0, actions := 0 }
            trace := [ACTION_CLOSE_DEV, ACTION_RECONNECT], transfers := [], stop := false }) ∧
    ∀ M, on_attach M { d with dev_hdl := NULL, dev_addr := 0, actions := 0 } =
      .ok { d with dev_hdl := NULL, dev_addr := M, actions := ACTION_OPEN_DEV.val } := by
  obtain ⟨c, a, h, acts⟩ := d
  simp only at ha
  subst ha
  have hpass : scheduling_pass r
      { client_hdl := c, dev_addr := a, dev_hdl := h, actions := ACTION_CLOSE_DEV.val } =
      .ok { drv := { client_hdl := c, dev_addr := 0, dev_hdl := NULL, actions := 0 }
            trace := [ACTION_CLOSE_DEV, ACTION_RECONNECT], transfers := [], stop := false } := by
    simp +decide [scheduling_pass, guarded, guarded_ccid_on, exit_or_reconnect,
      action_close_dev_eq, flag_set, flag_or, flag_clear, action_t.val, hclose, bind, Except.bind]
  refine ⟨hpass, ?_, ?_⟩
  · intro rs fuel hrs
    subst hrs
    simp only [action_t.val] at hpass ⊢
    simp +decide [scheduling_loop, hpass]
  · intro M
    simp +decide [on_attach, client_event_cb, flag_or, action_t.val]

/-- C9, on the session a detach leaves behind (handle 7, address 5), then an
attach for address 9. -/
theorem teardown_returns_to_idle_witness :
    ((7 : Nat) ≠ NULL ∧ (0x20 : Nat) = ACTION_CLOSE_DEV.val ∧
      (replies_ok 8).device_close_err = ESP_OK) ∧
    scheduling_pass (replies_ok 8)
        { client_hdl := 1, dev_addr := 5, dev_hdl := 7, actions := 0x20 } =
      .ok { drv := { client_hdl := 1, dev_addr := 0, dev_hdl := NULL, actions := 0 }
            trace := [ACTION_CLOSE_DEV, ACTION_RECONNECT], transfers := [], stop := false } ∧
    on_attach 9 { client_hdl := 1, dev_addr := 0, dev_hdl := NULL, actions := 0 } =
      .ok { client_hdl := 1, dev_addr := 9, dev_hdl := NULL, actions := 0x01 } :=
  ⟨⟨by decide, by decide, by decide⟩,
   (teardown_returns_to_idle { client_hdl := 1, dev_addr := 5, dev_hdl := 7, actions := 0x20 }
      (replies_ok 8) (by decide) (by decide) (by decide)).1,
   (teardown_returns_to_idle { client_hdl := 1, dev_addr := 5, dev_hdl := 7, actions := 0x20 }
      (replies_ok 8) (by decide) (by decide) (by decide)).2.2 9⟩

/-! ## C10: a failed descriptor read -/

/-- C10, counterexample: with a device open (handle 7), each of the four read
actions ends the process through `ESP_ERROR_CHECK` when its read call returns
`ESP_FAIL`; no session with the flag still set is returned. -/
theorem read_failure_aborts :
    action_get_info { replies_ok 7 with device_info_err := ESP_FAIL }
        { client_hdl := 1, dev_addr := 5, dev_hdl := 7, actions := 0x02 } =
      .error Fault.esp_error_check ∧
    action_get_dev_desc { replies_ok 7 with get_device_descriptor_err := ESP_FAIL }
        { client_hdl := 1, dev_addr := 5, dev_hdl := 7, actions := 0x04 } =
      .error Fault.esp_error_check ∧
    action_get_config_desc { replies_ok 7 with get_active_config_descriptor_err := ESP_FAIL }
        { client_hdl := 1, dev_addr := 5, dev_hdl := 7, actions := 0x08 } =
      .error Fault.esp_error_check ∧
    action_get_str_desc { replies_ok 7 with str_device_info_err := ESP_FAIL }
        { client_hdl := 1, dev_addr := 5, dev_hdl := 7, actions := 0x10 } =
      .error Fault.esp_error_check := by
  decide

/-- The flags after `actions &= ~own; actions |= next` for two flags with a bit. -/
theorem flag_set_after_step (a : Nat) (own next : action_t) (ho : own ≠ ACTION_CCID_ON)
    (hn : next ≠ ACTION_CCID_ON) (hne : own.bit ≠ next.bit) :
    flag_set (flag_or (flag_clear a own) next) own = false ∧
    flag_set (flag_or (flag_clear a own) next) next = true := by
  constructor
  · rw [flag_set_eq_testBit _ _ ho, testBit_flag_or _ _ hn, testBit_flag_clear _ _ ho]
    simp [Ne.symm hne]
  · rw [flag_set_eq_testBit _ _ hn, testBit_flag_or _ _ hn]
    simp

/-- C10, amended: for every session with `dev_hdl` non-null, each of
`action_get_info`, `action_get_dev_desc`, `action_get_config_desc` and
`action_get_str_desc` ends the process (`ESP_ERROR_CHECK`) when its read call
returns an error, and when the read succeeds returns with its own flag cleared
and the next flag set (`action_get_str_desc` only clears its flag, the next
one, `ACTION_CCID_ON`, being the value 0), the handles untouched. -/
theorem read_actions_abort_or_advance (r : usb_host_replies) (d : class_driver_t)
    (hh : d.dev_hdl ≠ NULL) :
    (r.device_info_err ≠ ESP_OK → action_get_info r d = .error Fault.esp_error_check) ∧
    (r.device_info_err = ESP_OK →
      action_get_info r d = .ok { d with
        actions := flag_or (flag_clear d.actions ACTION_GET_DEV_INFO) ACTION_GET_DEV_DESC } ∧
      flag_set (flag_or (flag_clear d.actions ACTION_GET_DEV_INFO) ACTION_GET_DEV_DESC)
        ACTION_GET_DEV_INFO = false ∧
      flag_set (flag_or (flag_clear d.actions ACTION_GET_DEV_INFO) ACTION_GET_DEV_DESC)
        ACTION_GET_DEV_DESC = true) ∧
    (r.get_device_descriptor_err ≠ ESP_OK →
      action_get_dev_desc r d = .error Fault.esp_error_check) ∧
    (r.get_device_descriptor_err = ESP_OK →
      action_get_dev_desc r d = .ok { d with
        actions := flag_or (flag_clear d.actions ACTION_GET_DEV_DESC) ACTION_GET_CONFIG_DESC } ∧
      flag_set (flag_or (flag_clear d.actions ACTION_GET_DEV_DESC) ACTION_GET_CONFIG_DESC)
        ACTION_GET_DEV_DESC = false ∧
      flag_set (flag_or (flag_clear d.actions ACTION_GET_DEV_DESC) ACTION_GET_CONFIG_DESC)
        ACTION_GET_CONFIG_DESC = true) ∧
    (r.get_active_config_descriptor_err ≠ ESP_OK →
      action_get_config_desc r d = .error Fault.esp_error_check) ∧
    (r.get_active_config_descriptor_err = ESP_OK →
      action_get_config_desc r d = .ok { d with
        actions := flag_or (flag_clear d.actions ACTION_GET_CONFIG_DESC) ACTION_GET_STR_DESC } ∧
      flag_set (flag_or (flag_clear d.actions ACTION_GET_CONFIG_DESC) ACTION_GET_STR_DESC)
        ACTION_GET_CONFIG_DESC = false ∧
      flag_set (flag_or (flag_clear d.actions ACTION_GET_CONFIG_DESC) ACTION_GET_STR_DESC)
        ACTION_GET_STR_DESC = true) ∧
    (r.str_device_info_err ≠ ESP_OK →
      action_get_str_desc r d = .error Fault.esp_error_check) ∧
    (r.str_device_info_err = ESP_OK →
      action_get_str_desc r d = .ok { d with
        actions := flag_clear d.actions ACTION_GET_STR_DESC } ∧
      flag_set (flag_clear d.actions ACTION_GET_STR_DESC) ACTION_GET_STR_DESC = false) := by
  refine ⟨fun he => ?_, fun he => ⟨?_, ?_⟩, fun he => ?_, fun he => ⟨?_, ?_⟩, fun he => ?_,
    fun he => ⟨?_, ?_⟩, fun he => ?_, fun he => ⟨?_, ?_⟩⟩
  · simp [action_get_info_eq, hh, he]
  · simp [action_get_info_eq, hh, he]
  · exact flag_set_after_step _ _ _ (by decide) (by decide) (by decide)
  · simp [action_get_dev_desc_eq, hh, he]
  · simp [action_get_dev_desc_eq, hh, he]
  · exact flag_set_after_step _ _ _ (by decide) (by decide) (by decide)
  · simp [action_get_config_desc_eq, hh, he]
  · simp [action_get_config_desc_eq, hh, he]
  · exact flag_set_after_step _ _ _ (by decide) (by decide) (by decide)
  · simp [action_get_str_desc_eq, hh, he]
  · simp [action_get_str_desc_eq, hh, he, flag_or_ccid_on]
  · rw [flag_set_eq_testBit _ _ (by decide), testBit_flag_clear _ _ (by decide)]
    simp

/-- C10 amended, on a session with handle 7: a failing and a succeeding
`usb_host_device_info` in `action_get_info`. -/
theorem read_actions_abort_or_advance_witness :
    ((7 : Nat) ≠ NULL ∧
      ({ replies_ok 7 with device_info_err := ESP_FAIL } : usb_host_replies).device_info_err
        ≠ ESP_OK ∧ (replies_ok 7).device_info_err = ESP_OK) ∧
    action_get_info { replies_ok 7 with device_info_err := ESP_FAIL }
        { client_hdl := 1, dev_addr := 5, dev_hdl := 7, actions := 0x02 } =
      .error Fault.esp_error_check ∧
    action_get_info (replies_ok 7)
        { client_hdl := 1, dev_addr := 5, dev_hdl := 7, actions := 0x02 } =
      .ok { client_hdl := 1, dev_addr := 5, dev_hdl := 7,
            actions := flag_or (flag_clear 0x02 ACTION_GET_DEV_INFO) ACTION_GET_DEV_DESC } :=
  ⟨⟨by decide, by decide, by decide⟩,
   (read_actions_abort_or_advance { replies_ok 7 with device_info_err := ESP_FAIL }
      { client_hdl := 1, dev_addr := 5, dev_hdl := 7, actions := 0x02 } (by decide)).1
      (by decide),
   ((read_actions_abort_or_advance (replies_ok 7)
      { client_hdl := 1, dev_addr := 5, dev_hdl := 7, actions := 0x02 } (by decide)).2.1
      (by decide)).1⟩

/-! ## C11: the callback aborts on an unknown event only -/

/-- C11: for every session and message, `client_event_cb` ends in `abort()`
exactly when the event kind is neither `NEW_DEV` nor `DEV_GONE`, and returns a
session exactly when it is one of the two. -/
theorem client_event_cb_abort_iff (m : usb_host_client_event_msg_t) (d : class_driver_t) :
    (client_event_cb m d = .error Fault.abort_called ↔
      (m.event ≠ USB_HOST_CLIENT_EVENT_NEW_DEV ∧ m.event ≠ USB_HOST_CLIENT_EVENT_DEV_GONE)) ∧
    ((∃ d1, client_event_cb m d = .ok d1) ↔
      (m.event = USB_HOST_CLIENT_EVENT_NEW_DEV ∨ m.event = USB_HOST_CLIENT_EVENT_DEV_GONE)) := by
  obtain ⟨ev, a⟩ := m
  cases ev with
  | USB_HOST_CLIENT_EVENT_NEW_DEV =>
    by_cases h : d.dev_addr = 0 <;> simp [client_event_cb, h]
  | USB_HOST_CLIENT_EVENT_DEV_GONE =>
    by_cases h : d.dev_hdl = NULL <;> simp [client_event_cb, h]
  | OTHER code => simp [client_event_cb]

/-! ## The effect of the actions on the flags and the handles -/

theorem action_open_dev_ok (r : usb_host_replies) (d d1 : class_driver_t)
    (h : action_open_dev r d = .ok d1) :
    d.dev_addr ≠ 0 ∧ d1.actions = flag_step ACTION_OPEN_DEV ACTION_GET_DEV_INFO d.actions ∧
      d1.dev_addr = d.dev_addr ∧
      d1.dev_hdl = (match r.device_open_hdl with | some k => k | none => d.dev_hdl) := by
  rw [action_open_dev_eq] at h
  split at h
  · simp at h
  · rename_i haddr
    simp only [Except.ok.injEq] at h
    subst h
    cases r.device_open_hdl <;> exact ⟨haddr, rfl, rfl, rfl⟩

theorem action_get_info_ok (r : usb_host_replies) (d d1 : class_driver_t)
    (h : action_get_info r d = .ok d1) :
    d.dev_hdl ≠ NULL ∧ d1.actions = flag_step ACTION_GET_DEV_INFO ACTION_GET_DEV_DESC d.actions ∧
      d1.dev_addr = d.dev_addr ∧ d1.dev_hdl = d.dev_hdl := by
  rw [action_get_info_eq] at h
  split at h
  · simp at h
  · rename_i hh
    split at h
    · simp at h
    · simp only [Except.ok.injEq] at h
      subst h
      exact ⟨hh, rfl, rfl, rfl⟩

theorem action_get_dev_desc_ok (r : usb_host_replies) (d d1 : class_driver_t)
    (h : action_get_dev_desc r d = .ok d1) :
    d.dev_hdl ≠ NULL ∧
      d1.actions = flag_step ACTION_GET_DEV_DESC ACTION_GET_CONFIG_DESC d.actions ∧
      d1.dev_addr = d.dev_addr ∧ d1.dev_hdl = d.dev_hdl := by
  rw [action_get_dev_desc_eq] at h
  split at h
  · simp at h
  · rename_i hh
    split at h
    · simp at h
    · simp only [Except.ok.injEq] at h
      subst h
      exact ⟨hh, rfl, rfl, rfl⟩

theorem action_get_config_desc_ok (r : usb_host_replies) (d d1 : class_driver_t)
    (h : action_get_config_desc r d = .ok d1) :
    d.dev_hdl ≠ NULL ∧
      d1.actions = flag_step ACTION_GET_CONFIG_DESC ACTION_GET_STR_DESC d.actions ∧
      d1.dev_addr = d.dev_addr ∧ d1.dev_hdl = d.dev_hdl := by
  rw [action_get_config_desc_eq] at h
  split at h
  · simp at h
  · rename_i hh
    split at h
    · simp at h
    · simp only [Except.ok.injEq] at h
      subst h
      exact ⟨hh, rfl, rfl, rfl⟩

theorem action_get_str_desc_ok (r : usb_host_replies) (d d1 : class_driver_t)
    (h : action_get_str_desc r d = .ok d1) :
    d.dev_hdl ≠ NULL ∧ d1.actions = flag_step ACTION_GET_STR_DESC ACTION_CCID_ON d.actions ∧
      d1.dev_addr = d.dev_addr ∧ d1.dev_hdl = d.dev_hdl := by
  rw [action_get_str_desc_eq] at h
  split at h
  · simp at h
  · rename_i hh
    split at h
    · simp at h
    · simp only [Except.ok.injEq] at h
      subst h
      exact ⟨hh, rfl, rfl, rfl⟩

theorem action_close_dev_ok (r : usb_host_replies) (d d1 : class_driver_t)
    (h : action_close_dev r d = .ok d1) :
    d1.actions = flag_step ACTION_CLOSE_DEV ACTION_RECONNECT d.actions ∧
      d1.dev_addr = 0 ∧ d1.dev_hdl = NULL := by
  rw [action_close_dev_eq] at h
  split at h
  · simp at h
  · simp only [Except.ok.injEq] at h
    subst h
    exact ⟨rfl, rfl, rfl⟩

/-- What a guarded call that returns does to the pass: either the flag was not
pending and nothing changed, or the action ran and was appended to the trace. -/
theorem guarded_ok (f : action_t) (action : class_driver_t → Except Fault class_driver_t)
    (p q : pass_t) (h : guarded f action p = .ok q) :
    (flag_set p.drv.actions f = false ∧ q = p) ∨
    (flag_set p.drv.actions f = true ∧ action p.drv = .ok q.drv ∧
      q.trace = p.trace ++ [f] ∧ q.transfers = p.transfers ∧ q.stop = p.stop) := by
  unfold guarded at h
  split at h
  · rename_i hf
    cases hres : action p.drv with
    | error e => simp [hres] at h
    | ok d1 =>
      simp only [hres, Except.ok.injEq] at h
      subst h
      exact Or.inr ⟨hf, rfl, rfl, rfl, rfl⟩
  · rename_i hf
    simp only [Except.ok.injEq] at h
    subst h
    exact Or.inl ⟨by simpa using hf, rfl⟩

/-- The flags after a guarded call that returns, for an action that ends with
the two updates on `own` and `next`. -/
theorem guarded_actions (own next : action_t)
    (action : class_driver_t → Except Fault class_driver_t)
    (hact : ∀ d d1, action d = .ok d1 → d1.actions = flag_step own next d.actions)
    (p q : pass_t) (h : guarded own action p = .ok q) :
    q.drv.actions = guarded_step own next p.drv.actions := by
  rcases guarded_ok _ _ _ _ h with ⟨hf, rfl⟩ | ⟨hf, ha, _⟩
  · simp [guarded_step, hf]
  · simp [guarded_step, hf, hact _ _ ha]

theorem guarded_ccid_on_ok (r : usb_host_replies) (p q : pass_t)
    (h : guarded_ccid_on r p = .ok q) :
    q.drv = p.drv ∧ q.stop = p.stop ∧
    ((p.drv.actions ≠ 0 ∧ q = p) ∨
     (p.drv.actions = 0 ∧ q.trace = p.trace ++ [ACTION_CCID_ON] ∧
       ∃ t, action_ccid_on r p.drv = .ok t ∧ q.transfers = p.transfers ++ [t])) := by
  unfold guarded_ccid_on at h
  split at h
  · rename_i hz
    cases hres : action_ccid_on r p.drv with
    | error e => simp [hres] at h
    | ok t =>
      simp only [hres, Except.ok.injEq] at h
      subst h
      exact ⟨rfl, rfl, Or.inr ⟨by simpa [action_t.val] using hz, rfl, t, rfl, rfl⟩⟩
  · rename_i hz
    simp only [Except.ok.injEq] at h
    subst h
    exact ⟨rfl, rfl, Or.inl ⟨by simpa [action_t.val] using hz, rfl⟩⟩

theorem scheduling_pass_eq (r : usb_host_replies) (d : class_driver_t) :
    scheduling_pass r d =
      (enumerate_and_close r d >>= guarded_ccid_on r >>= fun p => .ok (exit_or_reconnect p)) :=
  rfl

/-- The six guarded calls that return, spelled out step by step. -/
theorem enumerate_and_close_ok (r : usb_host_replies) (d : class_driver_t) (q : pass_t)
    (h : enumerate_and_close r d = .ok q) :
    ∃ p1 p2 p3 p4 p5,
      guarded ACTION_OPEN_DEV (action_open_dev r) ⟨d, [], [], false⟩ = .ok p1 ∧
      guarded ACTION_GET_DEV_INFO (action_get_info r) p1 = .ok p2 ∧
      guarded ACTION_GET_DEV_DESC (action_get_dev_desc r) p2 = .ok p3 ∧
      guarded ACTION_GET_CONFIG_DESC (action_get_config_desc r) p3 = .ok p4 ∧
      guarded ACTION_GET_STR_DESC (action_get_str_desc r) p4 = .ok p5 ∧
      guarded ACTION_CLOSE_DEV (action_close_dev r) p5 = .ok q := by
  unfold enumerate_and_close at h
  obtain ⟨p5, h, h6⟩ := bind_eq_ok h
  obtain ⟨p4, h, h5⟩ := bind_eq_ok h
  obtain ⟨p3, h, h4⟩ := bind_eq_ok h
  obtain ⟨p2, h, h3⟩ := bind_eq_ok h
  obtain ⟨p1, h1, h2⟩ := bind_eq_ok h
  exact ⟨p1, p2, p3, p4, p5, h1, h2, h3, h4, h5, h6⟩

/-- A pass that returns, split at the test for `ACTION_CCID_ON`. -/
theorem scheduling_pass_ok (r : usb_host_replies) (d : class_driver_t) (p : pass_t)
    (h : scheduling_pass r d = .ok p) :
    ∃ q q1, enumerate_and_close r d = .ok q ∧ guarded_ccid_on r q = .ok q1 ∧
      p = exit_or_reconnect q1 := by
  rw [scheduling_pass_eq] at h
  obtain ⟨q1, h, h8⟩ := bind_eq_ok h
  obtain ⟨q, h6, h7⟩ := bind_eq_ok h
  simp only [Except.ok.injEq] at h8
  exact ⟨q, q1, h6, h7, h8.symm⟩

/-- The flags at the test for `ACTION_CCID_ON` depend on the flags at the
start of the pass only. -/
theorem enumerate_and_close_actions (r : usb_host_replies) (d : class_driver_t) (q : pass_t)
    (h : enumerate_and_close r d = .ok q) : q.drv.actions = drain_flags d.actions := by
  obtain ⟨p1, p2, p3, p4, p5, h1, h2, h3, h4, h5, h6⟩ := enumerate_and_close_ok r d q h
  have e1 := guarded_actions _ ACTION_GET_DEV_INFO _
    (fun a b hab => (action_open_dev_ok r a b hab).2.1) _ _ h1
  have e2 := guarded_actions _ ACTION_GET_DEV_DESC _
    (fun a b hab => (action_get_info_ok r a b hab).2.1) _ _ h2
  have e3 := guarded_actions _ ACTION_GET_CONFIG_DESC _
    (fun a b hab => (action_get_dev_desc_ok r a b hab).2.1) _ _ h3
  have e4 := guarded_actions _ ACTION_GET_STR_DESC _
    (fun a b hab => (action_get_config_desc_ok r a b hab).2.1) _ _ h4
  have e5 := guarded_actions _ ACTION_CCID_ON _
    (fun a b hab => (action_get_str_desc_ok r a b hab).2.1) _ _ h5
  have e6 := guarded_actions _ ACTION_RECONNECT _
    (fun a b hab => (action_close_dev_ok r a b hab).1) _ _ h6
  simp only [drain_flags, enumerate_flags]
  rw [e6, e5, e4, e3, e2, e1]

/-! ## Bits of the flags after guarded calls -/

theorem testBit_flag_or_any (a : Nat) (f : action_t) (i : Nat) :
    (flag_or a f).testBit i =
      (a.testBit i || (decide (f ≠ ACTION_CCID_ON) && decide (f.bit = i))) := by
  by_cases hf : f = ACTION_CCID_ON
  · subst hf; simp [flag_or_ccid_on]
  · rw [testBit_flag_or a f hf]; simp [hf]

theorem testBit_guarded_step (own next : action_t) (ho : own ≠ ACTION_CCID_ON) (a i : Nat) :
    (guarded_step own next a).testBit i =
      if a.testBit own.bit then
        ((a.testBit i && decide (i < 32) && !decide (own.bit = i)) ||
          (decide (next ≠ ACTION_CCID_ON) && decide (next.bit = i)))
      else a.testBit i := by
  unfold guarded_step flag_step
  rw [flag_set_eq_testBit a own ho]
  split
  · rw [testBit_flag_or_any, testBit_flag_clear _ _ ho]
  · rfl

theorem flag_step_ne_zero (own next : action_t) (hn : next ≠ ACTION_CCID_ON) (a : Nat) :
    flag_step own next a ≠ 0 := by
  intro h0
  have hb : (flag_step own next a).testBit next.bit = true := by
    unfold flag_step
    rw [testBit_flag_or _ _ hn]; simp
  rw [h0] at hb
  simp at hb

theorem flag_set_zero (f : action_t) : flag_set 0 f = false := by
  cases f <;> decide

theorem guarded_step_lt (own next : action_t) (a : Nat) (ha : a < 256) :
    guarded_step own next a < 256 := by
  unfold guarded_step flag_step flag_or flag_clear
  split
  · have h1 : a &&& (0xFFFFFFFF ^^^ own.val) < 2 ^ 8 :=
      lt_of_le_of_lt Nat.and_le_left ha
    have h2 : next.val < 2 ^ 8 := by cases next <;> decide
    exact Nat.or_lt_two_pow h1 h2
  · exact ha

theorem drain_flags_lt (a : Nat) (ha : a < 256) : drain_flags a < 256 := by
  unfold drain_flags enumerate_flags
  repeat apply guarded_step_lt
  exact ha

theorem guarded_step_clear (own next : action_t) (ho : own ≠ ACTION_CCID_ON) (i : Nat)
    (hi : own.bit = i) (hn : next = ACTION_CCID_ON ∨ next.bit ≠ i) (a : Nat) :
    (guarded_step own next a).testBit i = false := by
  rw [testBit_guarded_step own next ho]
  subst hi
  split
  · rcases hn with hn | hn <;> simp [hn]
  · rename_i hb
    simpa using hb

theorem guarded_step_keep (own next : action_t) (ho : own ≠ ACTION_CCID_ON) (i : Nat)
    (hi : i < 32) (h1 : own.bit ≠ i) (h2 : next = ACTION_CCID_ON ∨ next.bit ≠ i) (a : Nat) :
    (guarded_step own next a).testBit i = a.testBit i := by
  rw [testBit_guarded_step own next ho]
  split
  · rcases h2 with h2 | h2 <;> simp [hi, h1, h2]
  · rfl

/-- The bits 0 to 4 of the flags are clear after the five guarded enumeration
calls; the bits 5, 6 and 7 are as at the start of the pass. -/
theorem enumerate_flags_bits (a : Nat) :
    (enumerate_flags a).testBit 0 = false ∧ (enumerate_flags a).testBit 1 = false ∧
    (enumerate_flags a).testBit 2 = false ∧ (enumerate_flags a).testBit 3 = false ∧
    (enumerate_flags a).testBit 4 = false ∧ (enumerate_flags a).testBit 5 = a.testBit 5 ∧
    (enumerate_flags a).testBit 6 = a.testBit 6 ∧ (enumerate_flags a).testBit 7 = a.testBit 7 := by
  unfold enumerate_flags
  refine ⟨?_, ?_, ?_, ?_, ?_, ?_, ?_, ?_⟩
  · rw [guarded_step_keep ACTION_GET_STR_DESC _ (by decide) 0 (by decide) (by decide) (by decide),
      guarded_step_keep ACTION_GET_CONFIG_DESC _ (by decide) 0 (by decide) (by decide) (by decide),
      guarded_step_keep ACTION_GET_DEV_DESC _ (by decide) 0 (by decide) (by decide) (by decide),
      guarded_step_keep ACTION_GET_DEV_INFO _ (by decide) 0 (by decide) (by decide) (by decide),
      guarded_step_clear ACTION_OPEN_DEV _ (by decide) 0 (by decide) (by decide)]
  · rw [guarded_step_keep ACTION_GET_STR_DESC _ (by decide) 1 (by decide) (by decide) (by decide),
      guarded_step_keep ACTION_GET_CONFIG_DESC _ (by decide) 1 (by decide) (by decide) (by decide),
      guarded_step_keep ACTION_GET_DEV_DESC _ (by decide) 1 (by decide) (by decide) (by decide),
      guarded_step_clear ACTION_GET_DEV_INFO _ (by decide) 1 (by decide) (by decide)]
  · rw [guarded_step_keep ACTION_GET_STR_DESC _ (by decide) 2 (by decide) (by decide) (by decide),
      guarded_step_keep ACTION_GET_CONFIG_DESC _ (by decide) 2 (by decide) (by decide) (by decide),
      guarded_step_clear ACTION_GET_DEV_DESC _ (by decide) 2 (by decide) (by decide)]
  · rw [guarded_step_keep ACTION_GET_STR_DESC _ (by decide) 3 (by decide) (by decide) (by decide),
      guarded_step_clear ACTION_GET_CONFIG_DESC _ (by decide) 3 (by decide) (by decide)]
  · rw [guarded_step_clear ACTION_GET_STR_DESC _ (by decide) 4 (by decide) (by decide)]
  · rw [guarded_step_keep ACTION_GET_STR_DESC _ (by decide) 5 (by decide) (by decide) (by decide),
      guarded_step_keep ACTION_GET_CONFIG_DESC _ (by decide) 5 (by decide) (by decide) (by decide),
      guarded_step_keep ACTION_GET_DEV_DESC _ (by decide) 5 (by decide) (by decide) (by decide),
      guarded_step_keep ACTION_GET_DEV_INFO _ (by decide) 5 (by decide) (by decide) (by decide),
      guarded_step_keep ACTION_OPEN_DEV _ (by decide) 5 (by decide) (by decide) (by decide)]
  · rw [guarded_step_keep ACTION_GET_STR_DESC _ (by decide) 6 (by decide) (by decide) (by decide),
      guarded_step_keep ACTION_GET_CONFIG_DESC _ (by decide) 6 (by decide) (by decide) (by decide),
      guarded_step_keep ACTION_GET_DEV_DESC _ (by decide) 6 (by decide) (by decide) (by decide),
      guarded_step_keep ACTION_GET_DEV_INFO _ (by decide) 6 (by decide) (by decide) (by decide),
      guarded_step_keep ACTION_OPEN_DEV _ (by decide) 6 (by decide) (by decide) (by decide)]
  · rw [guarded_step_keep ACTION_GET_STR_DESC _ (by decide) 7 (by decide) (by decide) (by decide),
      guarded_step_keep ACTION_GET_CONFIG_DESC _ (by decide) 7 (by decide) (by decide) (by decide),
      guarded_step_keep ACTION_GET_DEV_DESC _ (by decide) 7 (by decide) (by decide) (by decide),
      guarded_step_keep ACTION_GET_DEV_INFO _ (by decide) 7 (by decide) (by decide) (by decide),
      guarded_step_keep ACTION_OPEN_DEV _ (by decide) 7 (by decide) (by decide) (by decide)]

/-- The bits 0 to 5 of the flags are clear at the test for `ACTION_CCID_ON`;
bit 6 (`ACTION_EXIT`) is as at the start of the pass, and bit 7
(`ACTION_RECONNECT`) is set if it was or if `ACTION_CLOSE_DEV` was pending. -/
theorem drain_flags_bits (a : Nat) :
    (drain_flags a).testBit 0 = false ∧ (drain_flags a).testBit 1 = false ∧
    (drain_flags a).testBit 2 = false ∧ (drain_flags a).testBit 3 = false ∧
    (drain_flags a).testBit 4 = false ∧ (drain_flags a).testBit 5 = false ∧
    (drain_flags a).testBit 6 = a.testBit 6 ∧
    (drain_flags a).testBit 7 = (a.testBit 7 || a.testBit 5) := by
  obtain ⟨e0, e1, e2, e3, e4, e5, e6, e7⟩ := enumerate_flags_bits a
  unfold drain_flags
  refine ⟨?_, ?_, ?_, ?_, ?_, ?_, ?_, ?_⟩
  · rw [guarded_step_keep ACTION_CLOSE_DEV _ (by decide) 0 (by decide) (by decide) (by decide), e0]
  · rw [guarded_step_keep ACTION_CLOSE_DEV _ (by decide) 1 (by decide) (by decide) (by decide), e1]
  · rw [guarded_step_keep ACTION_CLOSE_DEV _ (by decide) 2 (by decide) (by decide) (by decide), e2]
  · rw [guarded_step_keep ACTION_CLOSE_DEV _ (by decide) 3 (by decide) (by decide) (by decide), e3]
  · rw [guarded_step_keep ACTION_CLOSE_DEV _ (by decide) 4 (by decide) (by decide) (by decide), e4]
  · rw [guarded_step_clear ACTION_CLOSE_DEV _ (by decide) 5 (by decide) (by decide)]
  · rw [guarded_step_keep ACTION_CLOSE_DEV _ (by decide) 6 (by decide) (by decide) (by decide), e6]
  · rw [testBit_guarded_step ACTION_CLOSE_DEV _ (by decide)]
    have hb : action_t.bit ACTION_CLOSE_DEV = 5 := rfl
    have hr : action_t.bit ACTION_RECONNECT = 7 := rfl
    rw [hb, hr, e5, e7]
    cases a.testBit 5 <;> cases a.testBit 7 <;> simp +decide

/-! ## C12: the fixed order of the actions in a pass -/

theorem guarded_sublist (f : action_t) (action : class_driver_t → Except Fault class_driver_t)
    (p q : pass_t) (L : List action_t) (hp : p.trace.Sublist L)
    (h : guarded f action p = .ok q) : q.trace.Sublist (L ++ [f]) := by
  rcases guarded_ok _ _ _ _ h with ⟨_, rfl⟩ | ⟨_, _, ht, _⟩
  · exact hp.trans (List.sublist_append_left L [f])
  · rw [ht]
    exact hp.append (List.Sublist.refl [f])

/-- The actions run by the six guarded calls are, in that order, among the
first six of the priority order. -/
theorem enumerate_and_close_sublist (r : usb_host_replies) (d : class_driver_t) (q : pass_t)
    (h : enumerate_and_close r d = .ok q) :
    ∃ p5, guarded ACTION_CLOSE_DEV (action_close_dev r) p5 = .ok q ∧
      p5.trace.Sublist [ACTION_OPEN_DEV, ACTION_GET_DEV_INFO, ACTION_GET_DEV_DESC,
        ACTION_GET_CONFIG_DESC, ACTION_GET_STR_DESC] ∧
      q.trace.Sublist [ACTION_OPEN_DEV, ACTION_GET_DEV_INFO, ACTION_GET_DEV_DESC,
        ACTION_GET_CONFIG_DESC, ACTION_GET_STR_DESC, ACTION_CLOSE_DEV] := by
  obtain ⟨p1, p2, p3, p4, p5, h1, h2, h3, h4, h5, h6⟩ := enumerate_and_close_ok r d q h
  have s1 := guarded_sublist _ _ _ _ [] (List.Sublist.refl []) h1
  have s2 := guarded_sublist _ _ _ _ _ s1 h2
  have s3 := guarded_sublist _ _ _ _ _ s2 h3
  have s4 := guarded_sublist _ _ _ _ _ s3 h4
  have s5 := guarded_sublist _ _ _ _ _ s4 h5
  have s6 := guarded_sublist _ _ _ _ _ s5 h6
  exact ⟨p5, h6, s5, s6⟩

theorem guarded_ccid_on_sublist (r : usb_host_replies) (p q : pass_t) (L : List action_t)
    (hp : p.trace.Sublist L) (h : guarded_ccid_on r p = .ok q) :
    q.trace.Sublist (L ++ [ACTION_CCID_ON]) := by
  rcases (guarded_ccid_on_ok r p q h).2.2 with ⟨_, rfl⟩ | ⟨_, ht, _⟩
  · exact hp.trans (List.sublist_append_left L _)
  · rw [ht]
    exact hp.append (List.Sublist.refl _)

theorem exit_or_reconnect_sublist (p : pass_t) (L : List action_t) (hp : p.trace.Sublist L) :
    (exit_or_reconnect p).trace.Sublist (L ++ [ACTION_EXIT, ACTION_RECONNECT]) := by
  unfold exit_or_reconnect
  split
  · exact hp.append (List.Sublist.cons₂ _ (List.nil_sublist _))
  · split
    · exact hp.append (List.Sublist.cons _ (List.Sublist.refl _))
    · exact hp.trans (List.sublist_append_left L _)

/-- The trace of a pass that returns is a sublist of the priority order. -/
theorem scheduling_pass_sublist (r : usb_host_replies) (d : class_driver_t) (p : pass_t)
    (h : scheduling_pass r d = .ok p) : p.trace.Sublist priority_order := by
  obtain ⟨q, q1, h6, h7, rfl⟩ := scheduling_pass_ok r d p h
  obtain ⟨_, _, _, s6⟩ := enumerate_and_close_sublist r d q h6
  have s7 := guarded_ccid_on_sublist r q q1 _ s6 h7
  exact exit_or_reconnect_sublist q1 _ s7

theorem guarded_stop (f : action_t) (action : class_driver_t → Except Fault class_driver_t)
    (p q : pass_t) (h : guarded f action p = .ok q) : q.stop = p.stop := by
  rcases guarded_ok _ _ _ _ h with ⟨_, rfl⟩ | ⟨_, _, _, _, hs⟩
  · rfl
  · exact hs

/-- Two runs of the six guarded calls from the same flags run the same actions. -/
theorem guarded_lockstep (own next : action_t)
    (a1 a2 : class_driver_t → Except Fault class_driver_t)
    (h1 : ∀ d e, a1 d = .ok e → e.actions = flag_step own next d.actions)
    (h2 : ∀ d e, a2 d = .ok e → e.actions = flag_step own next d.actions)
    (p1 p2 q1 q2 : pass_t) (htr : p1.trace = p2.trace)
    (hac : p1.drv.actions = p2.drv.actions)
    (g1 : guarded own a1 p1 = .ok q1) (g2 : guarded own a2 p2 = .ok q2) :
    q1.trace = q2.trace ∧ q1.drv.actions = q2.drv.actions := by
  have e1 := guarded_actions own next a1 h1 p1 q1 g1
  have e2 := guarded_actions own next a2 h2 p2 q2 g2
  refine ⟨?_, by rw [e1, e2, hac]⟩
  rcases guarded_ok _ _ _ _ g1 with ⟨f1, rfl⟩ | ⟨f1, _, t1, _⟩ <;>
    rcases guarded_ok _ _ _ _ g2 with ⟨f2, rfl⟩ | ⟨f2, _, t2, _⟩
  · exact htr
  · rw [hac, f2] at f1; exact absurd f1 (by decide)
  · rw [hac, f2] at f1; exact absurd f1 (by decide)
  · rw [t1, t2, htr]

/-- The trace of a pass that returns depends on the flags at its start only. -/
theorem scheduling_pass_trace_congr (r1 r2 : usb_host_replies) (d1 d2 : class_driver_t)
    (p1 p2 : pass_t) (hac : d1.actions = d2.actions)
    (g1 : scheduling_pass r1 d1 = .ok p1) (g2 : scheduling_pass r2 d2 = .ok p2) :
    p1.trace = p2.trace ∧ p1.stop = p2.stop ∧ p1.drv.actions = p2.drv.actions := by
  obtain ⟨q1, u1, a6, a7, rfl⟩ := scheduling_pass_ok r1 d1 p1 g1
  obtain ⟨q2, u2, b6, b7, rfl⟩ := scheduling_pass_ok r2 d2 p2 g2
  obtain ⟨x1, x2, x3, x4, x5, a1, a2, a3, a4, a5, a6⟩ := enumerate_and_close_ok r1 d1 q1 a6
  obtain ⟨y1, y2, y3, y4, y5, b1, b2, b3, b4, b5, b6⟩ := enumerate_and_close_ok r2 d2 q2 b6
  have l1 := guarded_lockstep _ ACTION_GET_DEV_INFO _ _
    (fun a b hab => (action_open_dev_ok r1 a b hab).2.1)
    (fun a b hab => (action_open_dev_ok r2 a b hab).2.1)
    ⟨d1, [], [], false⟩ ⟨d2, [], [], false⟩ _ _ rfl hac a1 b1
  have l2 := guarded_lockstep _ ACTION_GET_DEV_DESC _ _
    (fun a b hab => (action_get_info_ok r1 a b hab).2.1)
    (fun a b hab => (action_get_info_ok r2 a b hab).2.1) _ _ _ _ l1.1 l1.2 a2 b2
  have l3 := guarded_lockstep _ ACTION_GET_CONFIG_DESC _ _
    (fun a b hab => (action_get_dev_desc_ok r1 a b hab).2.1)
    (fun a b hab => (action_get_dev_desc_ok r2 a b hab).2.1) _ _ _ _ l2.1 l2.2 a3 b3
  have l4 := guarded_lockstep _ ACTION_GET_STR_DESC _ _
    (fun a b hab => (action_get_config_desc_ok r1 a b hab).2.1)
    (fun a b hab => (action_get_config_desc_ok r2 a b hab).2.1) _ _ _ _ l3.1 l3.2 a4 b4
  have l5 := guarded_lockstep _ ACTION_CCID_ON _ _
    (fun a b hab => (action_get_str_desc_ok r1 a b hab).2.1)
    (fun a b hab => (action_get_str_desc_ok r2 a b hab).2.1) _ _ _ _ l4.1 l4.2 a5 b5
  have l6 := guarded_lockstep _ ACTION_RECONNECT _ _
    (fun a b hab => (action_close_dev_ok r1 a b hab).1)
    (fun a b hab => (action_close_dev_ok r2 a b hab).1) _ _ _ _ l5.1 l5.2 a6 b6
  obtain ⟨c1, c2, c3⟩ := guarded_ccid_on_ok r1 q1 u1 a7
  obtain ⟨e1, e2, e3⟩ := guarded_ccid_on_ok r2 q2 u2 b7
  have hu : u1.trace = u2.trace ∧ u1.drv.actions = u2.drv.actions := by
    refine ⟨?_, by rw [c1, e1, l6.2]⟩
    rcases c3 with ⟨z1, rfl⟩ | ⟨z1, t1, _⟩ <;> rcases e3 with ⟨z2, rfl⟩ | ⟨z2, t2, _⟩
    · exact l6.1
    · exact absurd (l6.2 ▸ z2) z1
    · exact absurd (l6.2 ▸ z1) z2
    · rw [t1, t2, l6.1]
  have hst : u1.stop = u2.stop := by
    have s1 : q1.stop = false := by
      rw [guarded_stop _ _ _ _ a6, guarded_stop _ _ _ _ a5, guarded_stop _ _ _ _ a4,
        guarded_stop _ _ _ _ a3, guarded_stop _ _ _ _ a2, guarded_stop _ _ _ _ a1]
    have s2 : q2.stop = false := by
      rw [guarded_stop _ _ _ _ b6, guarded_stop _ _ _ _ b5, guarded_stop _ _ _ _ b4,
        guarded_stop _ _ _ _ b3, guarded_stop _ _ _ _ b2, guarded_stop _ _ _ _ b1]
    rw [c2, e2, s1, s2]
  unfold exit_or_reconnect
  rw [hu.2]
  split
  · exact ⟨by simp [hu.1], rfl, hu.2⟩
  · split
    · exact ⟨by simp [hu.1], hst, rfl⟩
    · exact ⟨hu.1, hst, hu.2⟩

/-- C12: for every session with a non-empty pending set and every reply of the
host library under which the pass returns, the actions the pass executes are a
sublist of `OPEN_DEV, GET_DEV_INFO, GET_DEV_DESC, GET_CONFIG_DESC,
GET_STR_DESC, CLOSE_DEV, CCID_ON, EXIT, RECONNECT`, none executed twice, and
any other returning pass from the same flags (other replies, other handles)
executes the same sequence: it is a function of the pending flags. -/
theorem pass_runs_in_priority_order (r : usb_host_replies) (d : class_driver_t) (p : pass_t)
    (_hne : d.actions ≠ 0) (h : scheduling_pass r d = .ok p) :
    p.trace.Sublist priority_order ∧ p.trace.Nodup ∧
    ∀ (r2 : usb_host_replies) (d2 : class_driver_t) (p2 : pass_t),
      d2.actions = d.actions → scheduling_pass r2 d2 = .ok p2 → p2.trace = p.trace := by
  have hs := scheduling_pass_sublist r d p h
  refine ⟨hs, hs.nodup (by decide), fun r2 d2 p2 hac h2 => ?_⟩
  exact (scheduling_pass_trace_congr r2 r d2 d p2 p hac h2 h).1

/-- C12, on the session after an attach for address 5 with `CLOSE_DEV` and
`EXIT` pending as well: the pass runs seven actions in the priority order. -/
theorem pass_runs_in_priority_order_witness :
    ((0x61 : Nat) ≠ 0 ∧
      scheduling_pass (replies_ok 7)
          { client_hdl := 1, dev_addr := 5, dev_hdl := NULL, actions := 0x61 } =
        .ok { drv := { client_hdl := 1, dev_addr := 0, dev_hdl := NULL, actions := 0xC0 }
              trace := [ACTION_OPEN_DEV, ACTION_GET_DEV_INFO, ACTION_GET_DEV_DESC,
                         ACTION_GET_CONFIG_DESC, ACTION_GET_STR_DESC, ACTION_CLOSE_DEV,
                         ACTION_EXIT]
              transfers := [], stop := true }) ∧
    [ACTION_OPEN_DEV, ACTION_GET_DEV_INFO, ACTION_GET_DEV_DESC, ACTION_GET_CONFIG_DESC,
      ACTION_GET_STR_DESC, ACTION_CLOSE_DEV, ACTION_EXIT].Sublist priority_order :=
  ⟨⟨by decide, by decide⟩,
   (pass_runs_in_priority_order (replies_ok 7)
      { client_hdl := 1, dev_addr := 5, dev_hdl := NULL, actions := 0x61 }
      { drv := { client_hdl := 1, dev_addr := 0, dev_hdl := NULL, actions := 0xC0 }
        trace := [ACTION_OPEN_DEV, ACTION_GET_DEV_INFO, ACTION_GET_DEV_DESC,
                   ACTION_GET_CONFIG_DESC, ACTION_GET_STR_DESC, ACTION_CLOSE_DEV,
                   ACTION_EXIT]
        transfers := [], stop := true }
      (by decide) (by decide)).1⟩

/-! ## C13: `action_ccid_on` runs only with no flag pending -/

/-- The call `action_ccid_on` is made exactly when the guarded call does not
hand the pass back as it is: under the test `actions == ACTION_CCID_ON`. -/
theorem guarded_ccid_on_runs (r : usb_host_replies) (q : pass_t)
    (h : guarded_ccid_on r q ≠ .ok q) : q.drv.actions = 0 := by
  by_contra hz
  apply h
  unfold guarded_ccid_on
  rw [if_neg]
  simpa [action_t.val] using hz

theorem not_mem_of_sublist_enumeration (l : List action_t) (f : action_t)
    (hl : l.Sublist [ACTION_OPEN_DEV, ACTION_GET_DEV_INFO, ACTION_GET_DEV_DESC,
      ACTION_GET_CONFIG_DESC, ACTION_GET_STR_DESC])
    (hf : f = ACTION_CLOSE_DEV ∨ f = ACTION_CCID_ON ∨ f = ACTION_EXIT ∨ f = ACTION_RECONNECT) :
    f ∉ l := by
  intro hm
  have := hl.subset hm
  rcases hf with rfl | rfl | rfl | rfl <;> simp at this

/-- At the test for `ACTION_CCID_ON`: with no flag left, `CLOSE_DEV` has not
run in this pass and `EXIT` was not pending when the pass began. -/
theorem close_and_exit_exclude_ccid_on (r : usb_host_replies) (d : class_driver_t) (q : pass_t)
    (h : enumerate_and_close r d = .ok q) (hz : q.drv.actions = 0) :
    ACTION_CLOSE_DEV ∉ q.trace ∧ ACTION_EXIT ∉ q.trace ∧ ACTION_CCID_ON ∉ q.trace ∧
      flag_set d.actions ACTION_EXIT = false := by
  obtain ⟨p5, h6, s5, s6⟩ := enumerate_and_close_sublist r d q h
  have hclose : ACTION_CLOSE_DEV ∉ q.trace := by
    rcases guarded_ok _ _ _ _ h6 with ⟨_, rfl⟩ | ⟨_, ha, _⟩
    · exact not_mem_of_sublist_enumeration _ _ s5 (Or.inl rfl)
    · have := (action_close_dev_ok r _ _ ha).1
      rw [hz] at this
      exact absurd this.symm (flag_step_ne_zero _ _ (by decide) _)
  refine ⟨hclose, ?_, ?_, ?_⟩
  · intro hm
    have := s6.subset hm
    simp at this
  · intro hm
    have := s6.subset hm
    simp at this
  · have ha := enumerate_and_close_actions r d q h
    rw [hz] at ha
    have hb := (drain_flags_bits d.actions).2.2.2.2.2.2.1
    rw [← ha] at hb
    rw [flag_set_eq_testBit _ _ (by decide)]
    simpa using hb.symm

/-- C13: in every pass from every session, `action_ccid_on` is called only
when, at its test, none of the eight flags is pending; `CLOSE_DEV` has then
not run in this pass and `EXIT` was not pending when the pass began. For a
pass that returns: when `CCID_ON` is among the executed actions, `CLOSE_DEV`
and `EXIT` are not, and the pass ends with `actions = 0`. -/
theorem ccid_on_only_when_sole (r : usb_host_replies) (d : class_driver_t) :
    (∀ q, enumerate_and_close r d = .ok q → guarded_ccid_on r q ≠ .ok q →
      (∀ f, flag_set q.drv.actions f = false) ∧ ACTION_CLOSE_DEV ∉ q.trace ∧
      flag_set d.actions ACTION_EXIT = false ∧ flag_set q.drv.actions ACTION_EXIT = false) ∧
    (∀ p, scheduling_pass r d = .ok p → ACTION_CCID_ON ∈ p.trace →
      ACTION_CLOSE_DEV ∉ p.trace ∧ ACTION_EXIT ∉ p.trace ∧
      flag_set d.actions ACTION_EXIT = false ∧ p.drv.actions = 0 ∧ p.stop = false) := by
  constructor
  · intro q h hrun
    have hz := guarded_ccid_on_runs r q hrun
    obtain ⟨c1, _, _, c4⟩ := close_and_exit_exclude_ccid_on r d q h hz
    refine ⟨fun f => by rw [hz]; exact flag_set_zero f, c1, c4, by rw [hz]; exact flag_set_zero _⟩
  · intro p h hmem
    obtain ⟨q, q1, h6, h7, rfl⟩ := scheduling_pass_ok r d p h
    obtain ⟨k1, k2, k3⟩ := guarded_ccid_on_ok r q q1 h7
    obtain ⟨_, _, _, s6⟩ := enumerate_and_close_sublist r d q h6
    have hstop : q.stop = false := by
      obtain ⟨p1, p2, p3, p4, p5, a1, a2, a3, a4, a5, a6⟩ := enumerate_and_close_ok r d q h6
      rw [guarded_stop _ _ _ _ a6, guarded_stop _ _ _ _ a5, guarded_stop _ _ _ _ a4,
        guarded_stop _ _ _ _ a3, guarded_stop _ _ _ _ a2, guarded_stop _ _ _ _ a1]
    have hq1 : ACTION_CCID_ON ∈ q1.trace := by
      unfold exit_or_reconnect at hmem
      split at hmem
      · simpa using hmem
      · split at hmem
        · simpa using hmem
        · exact hmem
    rcases k3 with ⟨_, rfl⟩ | ⟨hz, ht, _⟩
    · have := s6.subset hq1
      simp at this
    · obtain ⟨c1, c2, _, c4⟩ := close_and_exit_exclude_ccid_on r d q h6 hz
      have hq1a : q1.drv.actions = 0 := by rw [k1, hz]
      have hfix : exit_or_reconnect q1 = q1 := by
        unfold exit_or_reconnect
        rw [hq1a, flag_set_zero, flag_set_zero]
        simp
      rw [hfix, ht]
      refine ⟨by simpa using c1, by simpa using c2, c4, hq1a, by rw [k2, hstop]⟩

/-- C13, on the session after an attach for address 5: `action_ccid_on` runs
at the end of the enumeration pass, where no flag is left. -/
theorem ccid_on_only_when_sole_witness :
    (scheduling_pass (replies_ok 7)
        { client_hdl := 1, dev_addr := 5, dev_hdl := NULL, actions := 0x01 } =
      .ok { drv := { client_hdl := 1, dev_addr := 5, dev_hdl := 7, actions := 0 }
            trace := [ACTION_OPEN_DEV, ACTION_GET_DEV_INFO, ACTION_GET_DEV_DESC,
                       ACTION_GET_CONFIG_DESC, ACTION_GET_STR_DESC, ACTION_CCID_ON]
            transfers := [{ data_buffer := [0x80, 0x06, 0x01, 0x03, 0x09, 0x03, 0x00, 0xFF]
                            num_bytes := 8, device_handle := 7, bEndpointAddress := 0x81
                            callback := none }]
            stop := false } ∧
      ACTION_CCID_ON ∈ [ACTION_OPEN_DEV, ACTION_GET_DEV_INFO, ACTION_GET_DEV_DESC,
        ACTION_GET_CONFIG_DESC, ACTION_GET_STR_DESC, ACTION_CCID_ON]) ∧
    (ACTION_CLOSE_DEV ∉ [ACTION_OPEN_DEV, ACTION_GET_DEV_INFO, ACTION_GET_DEV_DESC,
        ACTION_GET_CONFIG_DESC, ACTION_GET_STR_DESC, ACTION_CCID_ON] ∧
      ACTION_EXIT ∉ [ACTION_OPEN_DEV, ACTION_GET_DEV_INFO, ACTION_GET_DEV_DESC,
        ACTION_GET_CONFIG_DESC, ACTION_GET_STR_DESC, ACTION_CCID_ON] ∧
      flag_set 0x01 ACTION_EXIT = false ∧ (0 : Nat) = 0 ∧ false = false) :=
  ⟨⟨by decide, by decide⟩,
   (ccid_on_only_when_sole (replies_ok 7)
      { client_hdl := 1, dev_addr := 5, dev_hdl := NULL, actions := 0x01 }).2
      { drv := { client_hdl := 1, dev_addr := 5, dev_hdl := 7, actions := 0 }
        trace := [ACTION_OPEN_DEV, ACTION_GET_DEV_INFO, ACTION_GET_DEV_DESC,
                   ACTION_GET_CONFIG_DESC, ACTION_GET_STR_DESC, ACTION_CCID_ON]
        transfers := [{ data_buffer := [0x80, 0x06, 0x01, 0x03, 0x09, 0x03, 0x00, 0xFF]
                        num_bytes := 8, device_handle := 7, bEndpointAddress := 0x81
                        callback := none }]
        stop := false }
      (by decide) (by decide)⟩

/-! ## C17: `action_ccid_on` runs on an open device only -/

theorem guarded_sole_of_next (own next : action_t) (hn : next ≠ ACTION_CCID_ON)
    (action : class_driver_t → Except Fault class_driver_t)
    (hact : ∀ d d1, action d = .ok d1 → d1.actions = flag_step own next d.actions)
    (p q : pass_t) (hp : sole_after_str_desc p) (h : guarded own action p = .ok q) :
    sole_after_str_desc q := by
  rcases guarded_ok _ _ _ _ h with ⟨_, rfl⟩ | ⟨_, ha, _⟩
  · exact hp
  · intro hz
    have := hact _ _ ha
    rw [hz] at this
    exact absurd this.symm (flag_step_ne_zero _ _ hn _)

theorem guarded_sole_of_str_desc (r : usb_host_replies) (p q : pass_t)
    (hp : sole_after_str_desc p)
    (h : guarded ACTION_GET_STR_DESC (action_get_str_desc r) p = .ok q) :
    sole_after_str_desc q := by
  rcases guarded_ok _ _ _ _ h with ⟨_, rfl⟩ | ⟨_, ha, ht, _⟩
  · exact hp
  · intro _
    obtain ⟨hh, _, _, hk⟩ := action_get_str_desc_ok r _ _ ha
    exact ⟨by rw [ht]; simp, by rw [hk]; exact hh⟩

/-- With a flag pending when the pass begins, no flag is left at the test for
`ACTION_CCID_ON` only if `GET_STR_DESC` has run, on a non-null handle. -/
theorem enumerate_and_close_sole (r : usb_host_replies) (d : class_driver_t) (q : pass_t)
    (hne : d.actions ≠ 0) (h : enumerate_and_close r d = .ok q) : sole_after_str_desc q := by
  obtain ⟨p1, p2, p3, p4, p5, h1, h2, h3, h4, h5, h6⟩ := enumerate_and_close_ok r d q h
  have i0 : sole_after_str_desc ⟨d, [], [], false⟩ := fun hz => absurd hz hne
  have i1 := guarded_sole_of_next _ ACTION_GET_DEV_INFO (by decide) _
    (fun a b hab => (action_open_dev_ok r a b hab).2.1) _ _ i0 h1
  have i2 := guarded_sole_of_next _ ACTION_GET_DEV_DESC (by decide) _
    (fun a b hab => (action_get_info_ok r a b hab).2.1) _ _ i1 h2
  have i3 := guarded_sole_of_next _ ACTION_GET_CONFIG_DESC (by decide) _
    (fun a b hab => (action_get_dev_desc_ok r a b hab).2.1) _ _ i2 h3
  have i4 := guarded_sole_of_next _ ACTION_GET_STR_DESC (by decide) _
    (fun a b hab => (action_get_config_desc_ok r a b hab).2.1) _ _ i3 h4
  have i5 := guarded_sole_of_str_desc r _ _ i4 h5
  exact guarded_sole_of_next _ ACTION_RECONNECT (by decide) _
    (fun a b hab => (action_close_dev_ok r a b hab).1) _ _ i5 h6

/-- C17: for every session (reachable or not) with a flag pending, as the loop
requires of a pass, and every reply under which the guarded calls before the
test return (no assertion fails): if `action_ccid_on` is called in the pass,
then `GET_STR_DESC` has run earlier in the same pass and `dev_hdl` is non-null,
and so is the handle put in the transfer. For a pass that returns with
`CCID_ON` among its actions: the trace ends in `CCID_ON` with `GET_STR_DESC`
before it, and every transfer submitted carries a non-null handle. -/
theorem ccid_on_needs_open_device (r : usb_host_replies) (d : class_driver_t)
    (hne : d.actions ≠ 0) :
    (∀ q, enumerate_and_close r d = .ok q → guarded_ccid_on r q ≠ .ok q →
      ACTION_GET_STR_DESC ∈ q.trace ∧ q.drv.dev_hdl ≠ NULL ∧
      ∀ t, action_ccid_on r q.drv = .ok t → t.device_handle ≠ NULL) ∧
    (∀ p, scheduling_pass r d = .ok p → ACTION_CCID_ON ∈ p.trace →
      (∃ l, p.trace = l ++ [ACTION_CCID_ON] ∧ ACTION_GET_STR_DESC ∈ l) ∧
      p.drv.dev_hdl ≠ NULL ∧ ∀ t ∈ p.transfers, t.device_handle ≠ NULL) := by
  have hhandle : ∀ (x : class_driver_t) (t : usb_transfer_t), x.dev_hdl ≠ NULL →
      action_ccid_on r x = .ok t → t.device_handle ≠ NULL := by
    intro x t hx ht
    unfold action_ccid_on at ht
    split at ht
    · simp only [Except.ok.injEq] at ht
      subst ht
      exact hx
    · simp at ht
  constructor
  · intro q h hrun
    have hz := guarded_ccid_on_runs r q hrun
    obtain ⟨s1, s2⟩ := enumerate_and_close_sole r d q hne h hz
    exact ⟨s1, s2, fun t ht => hhandle _ t s2 ht⟩
  · intro p h hmem
    obtain ⟨q, q1, h6, h7, rfl⟩ := scheduling_pass_ok r d p h
    obtain ⟨k1, _, k3⟩ := guarded_ccid_on_ok r q q1 h7
    obtain ⟨p1, p2, p3, p4, p5, a1, a2, a3, a4, a5, a6⟩ := enumerate_and_close_ok r d q h6
    obtain ⟨_, _, _, s6⟩ := enumerate_and_close_sublist r d q h6
    have htr : q.transfers = [] := by
      have g : ∀ (f : action_t) (a : class_driver_t → Except Fault class_driver_t)
          (x y : pass_t), guarded f a x = .ok y → y.transfers = x.transfers := by
        intro f a x y hxy
        rcases guarded_ok _ _ _ _ hxy with ⟨_, rfl⟩ | ⟨_, _, _, ht, _⟩
        · rfl
        · exact ht
      rw [g _ _ _ _ a6, g _ _ _ _ a5, g _ _ _ _ a4, g _ _ _ _ a3, g _ _ _ _ a2, g _ _ _ _ a1]
    have hq1 : ACTION_CCID_ON ∈ q1.trace := by
      unfold exit_or_reconnect at hmem
      split at hmem
      · simpa using hmem
      · split at hmem
        · simpa using hmem
        · exact hmem
    rcases k3 with ⟨_, rfl⟩ | ⟨hz, ht, t, hct, htt⟩
    · have := s6.subset hq1
      simp at this
    · obtain ⟨s1, s2⟩ := enumerate_and_close_sole r d q hne h6 hz
      have hq1a : q1.drv.actions = 0 := by rw [k1, hz]
      have hfix : exit_or_reconnect q1 = q1 := by
        unfold exit_or_reconnect
        rw [hq1a, flag_set_zero, flag_set_zero]
        simp
      rw [hfix]
      refine ⟨⟨q.trace, ht, s1⟩, by rw [k1]; exact s2, ?_⟩
      intro t1 ht1
      rw [htt, htr] at ht1
      simp only [List.nil_append, List.mem_singleton] at ht1
      subst ht1
      exact hhandle _ _ s2 hct

/-- C17, on the session after an attach for address 5: the transfer of the
enumeration pass carries the handle 7 the open stored. -/
theorem ccid_on_needs_open_device_witness :
    ((0x01 : Nat) ≠ 0 ∧
      scheduling_pass (replies_ok 7)
          { client_hdl := 1, dev_addr := 5, dev_hdl := NULL, actions := 0x01 } =
        .ok { drv := { client_hdl := 1, dev_addr := 5, dev_hdl := 7, actions := 0 }
              trace := [ACTION_OPEN_DEV, ACTION_GET_DEV_INFO, ACTION_GET_DEV_DESC,
                         ACTION_GET_CONFIG_DESC, ACTION_GET_STR_DESC, ACTION_CCID_ON]
              transfers := [{ data_buffer := [0x80, 0x06, 0x01, 0x03, 0x09, 0x03, 0x00, 0xFF]
                              num_bytes := 8, device_handle := 7, bEndpointAddress := 0x81
                              callback := none }]
              stop := false }) ∧
    (∃ l, [ACTION_OPEN_DEV, ACTION_GET_DEV_INFO, ACTION_GET_DEV_DESC, ACTION_GET_CONFIG_DESC,
        ACTION_GET_STR_DESC, ACTION_CCID_ON] = l ++ [ACTION_CCID_ON] ∧
        ACTION_GET_STR_DESC ∈ l) ∧
    (7 : Nat) ≠ NULL :=
  ⟨⟨by decide, by decide⟩,
   ((ccid_on_needs_open_device (replies_ok 7)
      { client_hdl := 1, dev_addr := 5, dev_hdl := NULL, actions := 0x01 } (by decide)).2
      { drv := { client_hdl := 1, dev_addr := 5, dev_hdl := 7, actions := 0 }
        trace := [ACTION_OPEN_DEV, ACTION_GET_DEV_INFO, ACTION_GET_DEV_DESC,
                   ACTION_GET_CONFIG_DESC, ACTION_GET_STR_DESC, ACTION_CCID_ON]
        transfers := [{ data_buffer := [0x80, 0x06, 0x01, 0x03, 0x09, 0x03, 0x00, 0xFF]
                        num_bytes := 8, device_handle := 7, bEndpointAddress := 0x81
                        callback := none }]
        stop := false }
      (by decide) (by decide)).1,
   ((ccid_on_needs_open_device (replies_ok 7)
      { client_hdl := 1, dev_addr := 5, dev_hdl := NULL, actions := 0x01 } (by decide)).2
      { drv := { client_hdl := 1, dev_addr := 5, dev_hdl := 7, actions := 0 }
        trace := [ACTION_OPEN_DEV, ACTION_GET_DEV_INFO, ACTION_GET_DEV_DESC,
                   ACTION_GET_CONFIG_DESC, ACTION_GET_STR_DESC, ACTION_CCID_ON]
        transfers := [{ data_buffer := [0x80, 0x06, 0x01, 0x03, 0x09, 0x03, 0x00, 0xFF]
                        num_bytes := 8, device_handle := 7, bEndpointAddress := 0x81
                        callback := none }]
        stop := false }
      (by decide) (by decide)).2.1⟩

/-! ## Passes that cannot fail an assertion -/

theorem benign_bind (P Q : pass_t → Prop) (r : usb_host_replies) (x : Except Fault pass_t)
    (f : pass_t → Except Fault pass_t) (hx : benign_with P r x)
    (hf : ∀ q, P q → benign_with Q r (f q)) : benign_with Q r (x >>= f) := by
  rcases hx with ⟨q, rfl, hq⟩ | ⟨e, rfl, he, hr⟩
  · simpa [bind, Except.bind] using hf q hq
  · exact Or.inr ⟨e, by simp [bind, Except.bind], he, hr⟩

theorem no_read_pending_not (a : Nat) (f : action_t) (hn : no_read_pending a)
    (hf : f = ACTION_GET_DEV_INFO ∨ f = ACTION_GET_DEV_DESC ∨ f = ACTION_GET_CONFIG_DESC ∨
      f = ACTION_GET_STR_DESC) : flag_set a f = false := by
  obtain ⟨h1, h2, h3, h4⟩ := hn
  rcases hf with rfl | rfl | rfl | rfl <;> assumption

theorem guarded_open_dev_benign (r : usb_host_replies) (d : class_driver_t)
    (hopen : open_succeeds r) (hd : asserts_hold d) :
    benign_with reads_safe r
      (guarded ACTION_OPEN_DEV (action_open_dev r) ⟨d, [], [], false⟩) := by
  obtain ⟨_, ho1, ho2⟩ := hopen
  unfold guarded
  by_cases hf : flag_set d.actions ACTION_OPEN_DEV = true
  · have haddr := hd.1 hf
    cases hk : r.device_open_hdl with
    | none => exact absurd hk ho1
    | some k =>
      have hk0 : k ≠ NULL := fun h0 => ho2 (by rw [hk, h0])
      refine Or.inl ⟨_, by simp only [hf, if_true, action_open_dev_eq, haddr, if_false, hk]; rfl, ?_⟩
      exact Or.inl hk0
  · have hf0 : flag_set d.actions ACTION_OPEN_DEV = false := by simpa using hf
    refine Or.inl ⟨_, by simp only [hf0, Bool.false_eq_true, if_false]; rfl, ?_⟩
    by_cases hh : d.dev_hdl = NULL
    · exact Or.inr (hd.2 hf0 hh)
    · exact Or.inl hh

/-- A guarded read on a pass whose reads are safe returns, the reads still
safe, unless its call to the host library fails. -/
theorem guarded_read_benign (r : usb_host_replies) (f next : action_t)
    (action : class_driver_t → Except Fault class_driver_t) (err : Int)
    (hf : f = ACTION_GET_DEV_INFO ∨ f = ACTION_GET_DEV_DESC ∨ f = ACTION_GET_CONFIG_DESC ∨
      f = ACTION_GET_STR_DESC)
    (hact : ∀ d, action d =
      if d.dev_hdl = NULL then .error Fault.assert_failed
      else if err ≠ ESP_OK then .error Fault.esp_error_check
      else .ok { d with actions := flag_or (flag_clear d.actions f) next })
    (herr : err ≠ ESP_OK → ¬ all_succeed r)
    (p : pass_t) (hp : reads_safe p) :
    benign_with reads_safe r (guarded f action p) := by
  unfold guarded
  by_cases hfs : flag_set p.drv.actions f = true
  · have hh : p.drv.dev_hdl ≠ NULL := by
      rcases hp with hh | hn
      · exact hh
      · rw [no_read_pending_not _ _ hn hf] at hfs
        exact absurd hfs (by decide)
    by_cases he : err = ESP_OK
    · refine Or.inl ⟨_, by simp only [hfs, if_true, hact, hh, if_false, he, ne_eq,
        not_true_eq_false]; rfl, ?_⟩
      exact Or.inl hh
    · refine Or.inr ⟨Fault.esp_error_check, by simp only [hfs, if_true, hact, hh, if_false, he,
        ne_eq, not_false_eq_true], by decide, herr he⟩
  · have hf0 : flag_set p.drv.actions f = false := by simpa using hfs
    exact Or.inl ⟨p, by simp only [hf0, Bool.false_eq_true, if_false], hp⟩

theorem guarded_close_dev_benign (r : usb_host_replies) (p : pass_t) :
    benign_with (fun _ => True) r (guarded ACTION_CLOSE_DEV (action_close_dev r) p) := by
  unfold guarded
  by_cases hfs : flag_set p.drv.actions ACTION_CLOSE_DEV = true
  · by_cases he : r.device_close_err = ESP_OK
    · exact Or.inl ⟨_, by simp only [hfs, if_true, action_close_dev_eq, he, ne_eq,
        not_true_eq_false, if_false]; rfl, trivial⟩
    · exact Or.inr ⟨Fault.esp_error_check, by simp only [hfs, if_true, action_close_dev_eq, he,
        ne_eq, not_false_eq_true], by decide, fun hall => he hall.2.2.2.2.2.2.2.1⟩
  · have hf0 : flag_set p.drv.actions ACTION_CLOSE_DEV = false := by simpa using hfs
    exact Or.inl ⟨p, by simp only [hf0, Bool.false_eq_true, if_false], trivial⟩

theorem guarded_ccid_on_benign (r : usb_host_replies) (p : pass_t) :
    benign_with (fun _ => True) r (guarded_ccid_on r p) := by
  unfold guarded_ccid_on action_ccid_on
  by_cases hz : p.drv.actions = ACTION_CCID_ON.val
  · by_cases ha : r.transfer_alloc = true
    · exact Or.inl ⟨_, by simp only [hz, if_true, ha]; rfl, trivial⟩
    · exact Or.inr ⟨Fault.null_deref, by simp only [hz, if_true, ha, Bool.false_eq_true,
        if_false], by decide, fun hall => ha hall.2.2.2.2.2.2.2.2.1⟩
  · exact Or.inl ⟨p, by simp only [hz, if_false], trivial⟩

/-- A pass whose open stores a non-null handle, from a session on which the
assertions hold, returns or ends in a failed call, never in a failed assertion. -/
theorem scheduling_pass_benign (r : usb_host_replies) (d : class_driver_t)
    (hopen : open_succeeds r) (hd : asserts_hold d) :
    benign_with (fun _ => True) r (scheduling_pass r d) := by
  unfold scheduling_pass
  refine benign_bind (fun _ => True) _ r _ _ ?_ (fun q _ => Or.inl ⟨_, rfl, trivial⟩)
  refine benign_bind (fun _ => True) _ r _ _ ?_ (fun q _ => guarded_ccid_on_benign r q)
  refine benign_bind reads_safe _ r _ _ ?_ (fun q _ => guarded_close_dev_benign r q)
  refine benign_bind reads_safe _ r _ _ ?_ (fun q hq =>
    guarded_read_benign r _ ACTION_CCID_ON _ r.str_device_info_err
      (Or.inr (Or.inr (Or.inr rfl))) (action_get_str_desc_eq r)
      (fun he hall => he hall.2.2.2.2.2.2.1) q hq)
  refine benign_bind reads_safe _ r _ _ ?_ (fun q hq =>
    guarded_read_benign r _ ACTION_GET_STR_DESC _ r.get_active_config_descriptor_err
      (Or.inr (Or.inr (Or.inl rfl))) (action_get_config_desc_eq r)
      (fun he hall => he hall.2.2.2.2.2.1) q hq)
  refine benign_bind reads_safe _ r _ _ ?_ (fun q hq =>
    guarded_read_benign r _ ACTION_GET_CONFIG_DESC _ r.get_device_descriptor_err
      (Or.inr (Or.inl rfl)) (action_get_dev_desc_eq r)
      (fun he hall => he hall.2.2.2.2.1) q hq)
  refine benign_bind reads_safe _ r _ _ ?_ (fun q hq =>
    guarded_read_benign r _ ACTION_GET_DEV_DESC _ r.device_info_err
      (Or.inl rfl) (action_get_info_eq r)
      (fun he hall => he hall.2.2.2.1) q hq)
  exact guarded_open_dev_benign r d hopen hd

/-! ## C18: a pass drains the pending set -/

theorem eq_zero_of_low_bits (x : Nat) (hx : x < 256)
    (h : ∀ i, i < 8 → x.testBit i = false) : x = 0 := by
  apply Nat.eq_of_testBit_eq
  intro i
  rw [Nat.zero_testBit]
  by_cases hi : i < 8
  · exact h i hi
  · apply Nat.testBit_lt_two_pow
    calc x < 2 ^ 8 := hx
      _ ≤ 2 ^ i := Nat.pow_le_pow_right (by decide) (by omega)

/-- The end of a pass that returns: it stops exactly when `EXIT` was pending
at its start; it leaves neither `OPEN_DEV` nor a read pending; and from flags
among the eight defined ones it leaves none pending unless it stops. -/
theorem scheduling_pass_end (r : usb_host_replies) (d : class_driver_t) (p : pass_t)
    (h : scheduling_pass r d = .ok p) :
    (p.stop = true ↔ flag_set d.actions ACTION_EXIT = true) ∧
    (flag_set p.drv.actions ACTION_OPEN_DEV = false ∧ no_read_pending p.drv.actions) ∧
    (d.actions < 256 → p.stop = false → p.drv.actions = 0) := by
  obtain ⟨q, q1, h6, h7, rfl⟩ := scheduling_pass_ok r d p h
  obtain ⟨k1, k2, _⟩ := guarded_ccid_on_ok r q q1 h7
  have hstop : q1.stop = false := by
    obtain ⟨p1, p2, p3, p4, p5, a1, a2, a3, a4, a5, a6⟩ := enumerate_and_close_ok r d q h6
    rw [k2, guarded_stop _ _ _ _ a6, guarded_stop _ _ _ _ a5, guarded_stop _ _ _ _ a4,
      guarded_stop _ _ _ _ a3, guarded_stop _ _ _ _ a2, guarded_stop _ _ _ _ a1]
  have hx : q1.drv.actions = drain_flags d.actions := by
    rw [k1]; exact enumerate_and_close_actions r d q h6
  obtain ⟨b0, b1, b2, b3, b4, b5, b6, b7⟩ := drain_flags_bits d.actions
  have hexit : flag_set q1.drv.actions ACTION_EXIT = flag_set d.actions ACTION_EXIT := by
    rw [flag_set_eq_testBit _ _ (by decide), flag_set_eq_testBit _ _ (by decide), hx]
    exact b6
  have hlow : flag_set (drain_flags d.actions) ACTION_OPEN_DEV = false ∧
      no_read_pending (drain_flags d.actions) := by
    unfold no_read_pending
    rw [flag_set_eq_testBit _ _ (by decide), flag_set_eq_testBit _ _ (by decide),
      flag_set_eq_testBit _ _ (by decide), flag_set_eq_testBit _ _ (by decide),
      flag_set_eq_testBit _ _ (by decide)]
    exact ⟨b0, b1, b2, b3, b4⟩
  unfold exit_or_reconnect
  split
  · rename_i he
    refine ⟨by simpa [hexit] using he, by simpa [hx] using hlow, fun _ hs => by simp at hs⟩
  · rename_i he
    have he0 : flag_set d.actions ACTION_EXIT = false := by
      rw [← hexit]; simpa using he
    split
    · refine ⟨by simp [hstop, he0], ⟨flag_set_zero _, ?_⟩, fun _ _ => rfl⟩
      exact ⟨flag_set_zero _, flag_set_zero _, flag_set_zero _, flag_set_zero _⟩
    · rename_i hr
      refine ⟨by simp [hstop, he0], by simpa [hx] using hlow, fun hlt _ => ?_⟩
      rw [hx]
      apply eq_zero_of_low_bits _ (drain_flags_lt _ hlt)
      intro i hi
      have h6 : (drain_flags d.actions).testBit 6 = false := by
        rw [b6]
        have := flag_set_eq_testBit d.actions ACTION_EXIT (by decide)
        rw [he0] at this
        exact this.symm
      have h7 : (drain_flags d.actions).testBit 7 = false := by
        have := flag_set_eq_testBit q1.drv.actions ACTION_RECONNECT (by decide)
        rw [hx] at this
        rw [← hx]
        rw [hx]
        have hr0 : flag_set q1.drv.actions ACTION_RECONNECT = false := by simpa using hr
        rw [hx] at hr0
        rw [hr0] at this
        exact this.symm
      interval_cases i <;> assumption

/-- C18: for every session whose `actions` are a non-empty subset of the eight
defined flag bits, a pass that returns (the calls succeed, the assertions hold)
stops the loop exactly when `EXIT` was pending and otherwise ends with
`actions = 0`; run from that session the loop is therefore, after this one
pass, stopped or back in the blocking wait. When every call succeeds and the
assertions hold on the session, the pass does return. -/
theorem pass_drains_pending_set (r : usb_host_replies) (d : class_driver_t)
    (hne : d.actions ≠ 0) (hsub : d.actions < 256) :
    (∀ p, scheduling_pass r d = .ok p →
      (p.stop = true ↔ flag_set d.actions ACTION_EXIT = true) ∧
      (p.stop = false → p.drv.actions = 0) ∧
      ∀ (rs : Nat → usb_host_replies) (fuel : Nat), rs 0 = r →
        scheduling_loop rs (fuel + 2) 0 ⟨d, [], [], false⟩ =
          if p.stop then loop_end.exited p else loop_end.blocked p) ∧
    (all_succeed r → asserts_hold d → ∃ p, scheduling_pass r d = .ok p) := by
  constructor
  · intro p h
    obtain ⟨e1, _, e3⟩ := scheduling_pass_end r d p h
    refine ⟨e1, e3 hsub, fun rs fuel hrs => ?_⟩
    subst hrs
    obtain ⟨pd, pt, ptr, ps⟩ := p
    cases ps with
    | true => simp [scheduling_loop, hne, h]
    | false =>
      have hz : pd.actions = 0 := e3 hsub rfl
      simp [scheduling_loop, hne, h, hz]
  · intro hall hd
    rcases scheduling_pass_benign r d ⟨hall.1, hall.2.1, hall.2.2.1⟩ hd with
      ⟨p, hp, _⟩ | ⟨e, _, _, hn⟩
    · exact ⟨p, hp⟩
    · exact absurd hall hn

/-- C18, on a session with all of `GET_DEV_DESC`, `CLOSE_DEV` and `RECONNECT`
pending on the handle 7: the pass returns with `actions = 0` and the loop
blocks. -/
theorem pass_drains_pending_set_witness :
    ((0xa4 : Nat) ≠ 0 ∧ (0xa4 : Nat) < 256 ∧ all_succeed (replies_ok 8) ∧
      asserts_hold { client_hdl := 1, dev_addr := 5, dev_hdl := 7, actions := 0xa4 }) ∧
    (∃ p, scheduling_pass (replies_ok 8)
        { client_hdl := 1, dev_addr := 5, dev_hdl := 7, actions := 0xa4 } = .ok p) ∧
    scheduling_loop (fun _ => replies_ok 8) 2 0
        ⟨{ client_hdl := 1, dev_addr := 5, dev_hdl := 7, actions := 0xa4 }, [], [], false⟩ =
      loop_end.blocked
        { drv := { client_hdl := 1, dev_addr := 0, dev_hdl := NULL, actions := 0 }
          trace := [ACTION_GET_DEV_DESC, ACTION_GET_CONFIG_DESC, ACTION_GET_STR_DESC,
                     ACTION_CLOSE_DEV, ACTION_RECONNECT]
          transfers := [], stop := false } :=
  ⟨⟨by decide, by decide, by decide, by decide⟩,
   (pass_drains_pending_set (replies_ok 8)
      { client_hdl := 1, dev_addr := 5, dev_hdl := 7, actions := 0xa4 }
      (by decide) (by decide)).2 (by decide) (by decide),
   ((pass_drains_pending_set (replies_ok 8)
      { client_hdl := 1, dev_addr := 5, dev_hdl := 7, actions := 0xa4 }
      (by decide) (by decide)).1
      { drv := { client_hdl := 1, dev_addr := 0, dev_hdl := NULL, actions := 0 }
        trace := [ACTION_GET_DEV_DESC, ACTION_GET_CONFIG_DESC, ACTION_GET_STR_DESC,
                   ACTION_CLOSE_DEV, ACTION_RECONNECT]
        transfers := [], stop := false }
      (by decide)).2.2 (fun _ => replies_ok 8) 0 rfl⟩

/-! ## C16: no assertion fails on a run from the idle session -/

theorem flag_set_flag_or_of_ne (a : Nat) (f g : action_t) (hf : f ≠ ACTION_CCID_ON)
    (hg : g ≠ ACTION_CCID_ON) (hne : g.bit ≠ f.bit) :
    flag_set (flag_or a g) f = flag_set a f := by
  rw [flag_set_eq_testBit _ _ hf, flag_set_eq_testBit _ _ hf, testBit_flag_or _ _ hg]
  simp [hne]

theorem no_read_pending_flag_or (a : Nat) (g : action_t)
    (hg : g = ACTION_OPEN_DEV ∨ g = ACTION_EXIT) (h : no_read_pending a) :
    no_read_pending (flag_or a g) := by
  obtain ⟨h1, h2, h3, h4⟩ := h
  unfold no_read_pending
  rcases hg with rfl | rfl <;>
    rw [flag_set_flag_or_of_ne _ _ _ (by decide) (by decide) (by decide),
      flag_set_flag_or_of_ne _ _ _ (by decide) (by decide) (by decide),
      flag_set_flag_or_of_ne _ _ _ (by decide) (by decide) (by decide),
      flag_set_flag_or_of_ne _ _ _ (by decide) (by decide) (by decide)] <;>
    exact ⟨h1, h2, h3, h4⟩

theorem between_passes_of_actions (d : class_driver_t) (a : Nat) (ha : d.actions = a)
    (h1 : no_read_pending a) (h2 : flag_set a ACTION_OPEN_DEV = false) : between_passes d := by
  unfold between_passes
  rw [ha]
  exact ⟨h1, fun hf => by rw [h2] at hf; exact absurd hf (by decide)⟩

theorem between_passes_asserts_hold (d : class_driver_t) (h : between_passes d) :
    asserts_hold d :=
  ⟨h.2, fun _ _ => h.1⟩

theorem on_attach_between_passes (a : Nat) (d d1 : class_driver_t) (ha : a ≠ 0)
    (hd : between_passes d) (h : on_attach a d = .ok d1) : between_passes d1 := by
  unfold on_attach client_event_cb at h
  simp only at h
  split at h
  · simp only [Except.ok.injEq] at h
    subst h
    exact ⟨no_read_pending_flag_or _ _ (Or.inl rfl) hd.1, fun _ => ha⟩
  · simp only [Except.ok.injEq] at h
    subst h
    exact hd

theorem on_detach_between_passes (d d1 : class_driver_t)
    (hd : between_passes d) (h : on_detach d = .ok d1) : between_passes d1 := by
  unfold on_detach client_event_cb at h
  simp only at h
  split at h
  · simp only [Except.ok.injEq] at h
    subst h
    exact between_passes_of_actions _ ACTION_CLOSE_DEV.val rfl (by decide) (by decide)
  · simp only [Except.ok.injEq] at h
    subst h
    exact hd

theorem deregister_between_passes (u : Int) (d d1 : class_driver_t)
    (hd : between_passes d) (h : class_driver_client_deregister u d = .ok d1) :
    between_passes d1 := by
  rw [class_driver_client_deregister_eq] at h
  split at h
  · simp at h
  · simp only [Except.ok.injEq] at h
    subst h
    by_cases hn : d.dev_hdl ≠ NULL
    · rw [if_pos hn]
      exact between_passes_of_actions _ (flag_or ACTION_CLOSE_DEV.val ACTION_EXIT) rfl
        (by decide) (by decide)
    · rw [if_neg hn]
      refine ⟨no_read_pending_flag_or _ _ (Or.inr rfl) hd.1, fun hf => ?_⟩
      have hf1 : flag_set (flag_or d.actions ACTION_EXIT) ACTION_OPEN_DEV = true := hf
      rw [flag_set_flag_or_of_ne _ _ _ (by decide) (by decide) (by decide)] at hf1
      exact hd.2 hf1

theorem deregister_no_assert (u : Int) (d : class_driver_t) :
    class_driver_client_deregister u d ≠ .error Fault.assert_failed := by
  rw [class_driver_client_deregister_eq]
  split <;> simp

theorem client_event_cb_no_assert (m : usb_host_client_event_msg_t) (d : class_driver_t) :
    client_event_cb m d ≠ .error Fault.assert_failed := by
  unfold client_event_cb
  split
  · split <;> simp
  · split <;> simp
  · simp

/-- One event, well formed, on a task between two passes: no assertion fails,
and the task is again between two passes. -/
theorem deliver_between_passes (t : task_t) (e : session_event) (he : event_well_formed e)
    (ht : between_passes t.drv) :
    deliver t e ≠ .error Fault.assert_failed ∧
    ∀ t1, deliver t e = .ok t1 → between_passes t1.drv := by
  cases e with
  | attach a =>
    simp only [deliver]
    split
    · exact ⟨by simp, fun t1 h => by simp only [Except.ok.injEq] at h; subst h; exact ht⟩
    · cases hres : on_attach a t.drv with
      | error f =>
        have := client_event_cb_no_assert ⟨USB_HOST_CLIENT_EVENT_NEW_DEV, a⟩ t.drv
        refine ⟨?_, fun t1 h => by simp at h⟩
        intro h
        simp only [Except.error.injEq] at h
        subst h
        exact this hres
      | ok d =>
        refine ⟨by simp, fun t1 h => ?_⟩
        simp only [Except.ok.injEq] at h
        subst h
        exact on_attach_between_passes a _ _ he ht hres
  | detach =>
    simp only [deliver]
    split
    · exact ⟨by simp, fun t1 h => by simp only [Except.ok.injEq] at h; subst h; exact ht⟩
    · cases hres : on_detach t.drv with
      | error f =>
        have := client_event_cb_no_assert ⟨USB_HOST_CLIENT_EVENT_DEV_GONE, 0⟩ t.drv
        refine ⟨?_, fun t1 h => by simp at h⟩
        intro h
        simp only [Except.error.injEq] at h
        subst h
        exact this hres
      | ok d =>
        refine ⟨by simp, fun t1 h => ?_⟩
        simp only [Except.ok.injEq] at h
        subst h
        exact on_detach_between_passes _ _ ht hres
  | shutdown u =>
    simp only [deliver]
    cases hres : class_driver_client_deregister u t.drv with
    | error f =>
      refine ⟨?_, fun t1 h => by simp at h⟩
      intro h
      simp only [Except.error.injEq] at h
      subst h
      exact deregister_no_assert u t.drv hres
    | ok d =>
      refine ⟨by simp, fun t1 h => ?_⟩
      simp only [Except.ok.injEq] at h
      subst h
      exact deregister_between_passes u _ _ ht hres
  | pass r =>
    simp only [deliver]
    split
    · exact ⟨by simp, fun t1 h => by simp only [Except.ok.injEq] at h; subst h; exact ht⟩
    · unfold loop_iteration
      split
      · exact ⟨by simp, fun t1 h => by simp only [Except.ok.injEq] at h; subst h; exact ht⟩
      · cases hres : scheduling_pass r t.drv with
        | error f =>
          refine ⟨?_, fun t1 h => by simp at h⟩
          intro h
          simp only [Except.error.injEq] at h
          subst h
          rcases scheduling_pass_benign r t.drv he (between_passes_asserts_hold _ ht) with
            ⟨p, hp, _⟩ | ⟨e, hp, hne, _⟩
          · rw [hres] at hp; simp at hp
          · rw [hres] at hp
            simp only [Except.error.injEq] at hp
            exact hne hp.symm
        | ok p =>
          refine ⟨by simp, fun t1 h => ?_⟩
          simp only [Except.ok.injEq] at h
          subst h
          obtain ⟨_, ⟨e1, e2⟩, _⟩ := scheduling_pass_end r t.drv p hres
          exact ⟨e2, fun hf => by rw [e1] at hf; exact absurd hf (by decide)⟩

theorem run_events_no_assert (es : List session_event) (t : task_t)
    (hes : ∀ e ∈ es, event_well_formed e) (ht : between_passes t.drv) :
    run_events t es ≠ .error Fault.assert_failed := by
  induction es generalizing t with
  | nil => simp [run_events]
  | cons e es ih =>
    have he := hes e (List.mem_cons_self e es)
    obtain ⟨h1, h2⟩ := deliver_between_passes t e he ht
    simp only [run_events]
    cases hres : deliver t e with
    | error f =>
      intro h
      simp only [Except.error.injEq] at h
      subst h
      exact h1 hres
    | ok t1 =>
      exact ih t1 (fun x hx => hes x (List.mem_cons_of_mem e hx)) (h2 t1 hres)

/-- C16: from the idle session, along every sequence of attach notifications
with non-zero addresses, detach notifications, shutdown requests and loop
iterations in which every open succeeds with a non-null handle (the other
calls free to fail), no assertion of an action fails: the run never ends in a
failed `assert`, that is with `dev_addr = 0` where `OPEN_DEV` executes or with
`dev_hdl = NULL` where one of the four reads executes. -/
theorem no_assertion_fails (c : Nat) (es : List session_event)
    (hes : ∀ e ∈ es, event_well_formed e) :
    run_events ⟨idle c, false⟩ es ≠ .error Fault.assert_failed :=
  run_events_no_assert es _ hes (between_passes_of_actions _ 0 rfl (by decide) (by decide))

/-- C16, on an attach, the enumeration, a shutdown request and the last pass. -/
theorem no_assertion_fails_witness :
    (∀ e ∈ [session_event.attach 5, session_event.pass (replies_ok 7),
        session_event.shutdown ESP_OK, session_event.pass (replies_ok 8)],
      event_well_formed e) ∧
    run_events ⟨idle 1, false⟩ [session_event.attach 5, session_event.pass (replies_ok 7),
        session_event.shutdown ESP_OK, session_event.pass (replies_ok 8)] =
      .ok ⟨{ client_hdl := 1, dev_addr := 0, dev_hdl := NULL, actions := 0xC0 }, true⟩ ∧
    run_events ⟨idle 1, false⟩ [session_event.attach 5, session_event.pass (replies_ok 7),
        session_event.shutdown ESP_OK, session_event.pass (replies_ok 8)] ≠
      .error Fault.assert_failed :=
  ⟨by decide, by decide,
   no_assertion_fails 1 [session_event.attach 5, session_event.pass (replies_ok 7),
     session_event.shutdown ESP_OK, session_event.pass (replies_ok 8)] (by decide)⟩

/-! ## C15: shutdown on the sessions a run can reach -/

theorem scheduling_pass_close_only (r : usb_host_replies) (c a h : Nat) :
    scheduling_pass r { client_hdl := c, dev_addr := a, dev_hdl := h, actions := 0x20 } =
      if r.device_close_err = ESP_OK then
        .ok { drv := { client_hdl := c, dev_addr := 0, dev_hdl := NULL, actions := 0 }
              trace := [ACTION_CLOSE_DEV, ACTION_RECONNECT], transfers := [], stop := false }
      else .error Fault.esp_error_check := by
  by_cases hclose : r.device_close_err = ESP_OK <;>
    simp +decide [scheduling_pass, guarded, guarded_ccid_on, exit_or_reconnect,
      action_close_dev_eq, flag_set, flag_or, flag_clear, action_t.val, hclose, bind,
      Except.bind]

theorem scheduling_pass_close_exit (r : usb_host_replies) (c a h : Nat)
    (hclose : r.device_close_err = ESP_OK) :
    scheduling_pass r { client_hdl := c, dev_addr := a, dev_hdl := h, actions := 0x60 } =
      .ok { drv := { client_hdl := c, dev_addr := 0, dev_hdl := NULL, actions := 0xC0 }
            trace := [ACTION_CLOSE_DEV, ACTION_EXIT], transfers := [], stop := true } := by
  simp +decide [scheduling_pass, guarded, guarded_ccid_on, exit_or_reconnect,
    action_close_dev_eq, flag_set, flag_or, flag_clear, action_t.val, hclose, bind, Except.bind]

theorem scheduling_pass_exit_only (r : usb_host_replies) (c a h : Nat) :
    scheduling_pass r { client_hdl := c, dev_addr := a, dev_hdl := h, actions := 0x40 } =
      .ok { drv := { client_hdl := c, dev_addr := a, dev_hdl := h, actions := 0x40 }
            trace := [ACTION_EXIT], transfers := [], stop := true } := by
  simp +decide [scheduling_pass, guarded, guarded_ccid_on, exit_or_reconnect,
    flag_set, action_t.val, bind, Except.bind]

theorem exit_or_reconnect_handles (p : pass_t) :
    (exit_or_reconnect p).drv.dev_hdl = p.drv.dev_hdl ∧
    (exit_or_reconnect p).drv.dev_addr = p.drv.dev_addr := by
  unfold exit_or_reconnect
  split
  · exact ⟨rfl, rfl⟩
  · split <;> exact ⟨rfl, rfl⟩

/-- The pass that follows an accepted attach, whatever the host library
answers: if it returns, the device is open, nothing is pending and the loop
goes on. -/
theorem scheduling_pass_after_attach (r : usb_host_replies) (d : class_driver_t) (p : pass_t)
    (hh : d.dev_hdl = NULL) (ha : d.actions = 0x01) (h : scheduling_pass r d = .ok p) :
    p.drv.dev_addr ≠ 0 ∧ p.drv.dev_hdl ≠ NULL ∧ p.drv.actions = 0 ∧ p.stop = false := by
  obtain ⟨e1, _, e3⟩ := scheduling_pass_end r d p h
  have hstop : p.stop = false := by
    cases hs : p.stop with
    | false => rfl
    | true =>
      have := e1.1 hs
      rw [ha] at this
      exact absurd this (by decide)
  have hact : p.drv.actions = 0 := e3 (by rw [ha]; decide) hstop
  have hinv : session_inv p.drv :=
    scheduling_pass_inv r d p (fun hn => absurd hh hn) h
  obtain ⟨q, q1, h6, h7, hp⟩ := scheduling_pass_ok r d p h
  have hq : q.drv.actions = 0 := by
    rw [enumerate_and_close_actions r d q h6, ha]
    decide
  obtain ⟨_, s2⟩ := enumerate_and_close_sole r d q (by rw [ha]; decide) h6 hq
  have hhdl : p.drv.dev_hdl ≠ NULL := by
    rw [hp, (exit_or_reconnect_handles q1).1, (guarded_ccid_on_ok r q q1 h7).1]
    exact s2
  exact ⟨hinv hhdl, hhdl, hact, hstop⟩

/-- One attach, detach or loop iteration keeps the session among the shapes of
`reach_shape` and the loop running. -/
theorem deliver_reach_shape (t t1 : task_t) (e : session_event) (he : not_shutdown e)
    (ht : reach_shape t.drv) (hx : t.exited = false) (h : deliver t e = .ok t1) :
    reach_shape t1.drv ∧ t1.exited = false := by
  obtain ⟨⟨c, a, hd, acts⟩, ex⟩ := t
  simp only at ht hx
  subst hx
  cases e with
  | shutdown u => exact absurd he (by simp [not_shutdown])
  | attach a1 =>
    simp only [deliver, on_attach, client_event_cb, Bool.false_eq_true, if_false] at h
    by_cases h0 : a = 0
    · subst h0
      simp only [if_true, Except.ok.injEq] at h
      subst h
      refine ⟨?_, rfl⟩
      rcases ht with ⟨_, h2, h3⟩ | ⟨h2, h3⟩ | ⟨h1, _, _⟩
      · simp only at h2 h3
        subst h2 h3
        have e0 : flag_or 0 ACTION_OPEN_DEV = 0x01 := by decide
        exact Or.inr (Or.inl ⟨rfl, e0⟩)
      · simp only at h2 h3
        subst h2 h3
        have e1 : flag_or 0x01 ACTION_OPEN_DEV = 0x01 := by decide
        exact Or.inr (Or.inl ⟨rfl, e1⟩)
      · exact absurd rfl h1
    · simp only [h0, if_false, Except.ok.injEq] at h
      subst h
      exact ⟨ht, rfl⟩
  | detach =>
    simp only [deliver, on_detach, client_event_cb, Bool.false_eq_true, if_false] at h
    by_cases h0 : hd = NULL
    · simp only [h0, ne_eq, not_true_eq_false, if_false, Except.ok.injEq] at h
      subst h
      exact ⟨by simpa [h0] using ht, rfl⟩
    · simp only [ne_eq, h0, not_false_eq_true, if_true, Except.ok.injEq] at h
      subst h
      refine ⟨?_, rfl⟩
      rcases ht with ⟨_, h2, _⟩ | ⟨h2, _⟩ | ⟨h1, h2, _⟩
      · exact absurd h2 h0
      · exact absurd h2 h0
      · exact Or.inr (Or.inr ⟨h1, h2, Or.inr rfl⟩)
  | pass r =>
    simp only [deliver, Bool.false_eq_true, if_false, loop_iteration] at h
    by_cases hz : acts = 0
    · simp only [hz, if_true, Except.ok.injEq] at h
      subst h
      exact ⟨by simpa [hz] using ht, rfl⟩
    · simp only [hz, if_false] at h
      cases hres : scheduling_pass r ⟨c, a, hd, acts⟩ with
      | error f => simp [hres] at h
      | ok p =>
        simp only [hres, Except.ok.injEq] at h
        subst h
        rcases ht with ⟨_, _, h3⟩ | ⟨h2, h3⟩ | ⟨h1, h2, h3 | h3⟩
        · exact absurd h3 hz
        · obtain ⟨k1, k2, k3, k4⟩ := scheduling_pass_after_attach r _ p h2 h3 hres
          exact ⟨Or.inr (Or.inr ⟨k1, k2, Or.inl k3⟩), k4⟩
        · exact absurd h3 hz
        · simp only at h3
          subst h3
          rw [scheduling_pass_close_only] at hres
          split at hres
          · simp only [Except.ok.injEq] at hres
            subst hres
            exact ⟨Or.inl ⟨rfl, rfl, rfl⟩, rfl⟩
          · simp at hres

theorem run_events_reach_shape (es : List session_event) (t t1 : task_t)
    (hes : ∀ e ∈ es, not_shutdown e) (ht : reach_shape t.drv) (hx : t.exited = false)
    (h : run_events t es = .ok t1) : reach_shape t1.drv ∧ t1.exited = false := by
  induction es generalizing t with
  | nil =>
    simp only [run_events, Except.ok.injEq] at h
    subst h
    exact ⟨ht, hx⟩
  | cons e es ih =>
    simp only [run_events] at h
    cases hres : deliver t e with
    | error f => simp [hres] at h
    | ok t2 =>
      simp only [hres] at h
      obtain ⟨k1, k2⟩ := deliver_reach_shape t t2 e (hes e (List.mem_cons_self e es)) ht hx hres
      exact ih t2 (fun x hx1 => hes x (List.mem_cons_of_mem e hx1)) k1 k2 h

/-- C15, counterexample: after an attach for address 5 (`OPEN_DEV` pending, the
device not opened yet) the shutdown request only adds `EXIT`; the next pass,
every call succeeding, opens and enumerates the device and stops the loop on
`EXIT` without `CLOSE_DEV`: the loop stops with `dev_hdl = 7` and
`dev_addr = 5`. -/
theorem shutdown_after_attach_leaves_device_open :
    run_events ⟨idle 1, false⟩ [session_event.attach 5] =
      .ok ⟨{ client_hdl := 1, dev_addr := 5, dev_hdl := NULL, actions := 0x01 }, false⟩ ∧
    class_driver_client_deregister ESP_OK
        { client_hdl := 1, dev_addr := 5, dev_hdl := NULL, actions := 0x01 } =
      .ok { client_hdl := 1, dev_addr := 5, dev_hdl := NULL, actions := 0x41 } ∧
    scheduling_pass (replies_ok 7)
        { client_hdl := 1, dev_addr := 5, dev_hdl := NULL, actions := 0x41 } =
      .ok { drv := { client_hdl := 1, dev_addr := 5, dev_hdl := 7, actions := 0x40 }
            trace := [ACTION_OPEN_DEV, ACTION_GET_DEV_INFO, ACTION_GET_DEV_DESC,
                       ACTION_GET_CONFIG_DESC, ACTION_GET_STR_DESC, ACTION_EXIT]
            transfers := [], stop := true } ∧
    (7 : Nat) ≠ NULL ∧ (5 : Nat) ≠ 0 := by
  decide

/-- C15, amended: for every session reached from idle by attach notifications,
detach notifications and loop iterations in which `OPEN_DEV` is not pending (a
device is open, or none is tracked), when the unblock call of the shutdown
request and the close call of the next pass succeed, the shutdown request
followed by the next pass stops the loop on `EXIT` with `dev_hdl = NULL` and
`dev_addr = 0`, `CLOSE_DEV` having run just before `EXIT` if a device was open. -/
theorem shutdown_stops_loop_device_closed (c : Nat) (es : List session_event) (t : task_t)
    (r : usb_host_replies) (hes : ∀ e ∈ es, not_shutdown e)
    (hrun : run_events ⟨idle c, false⟩ es = .ok t)
    (hno : flag_set t.drv.actions ACTION_OPEN_DEV = false)
    (hclose : r.device_close_err = ESP_OK) :
    t.exited = false ∧
    ∃ p, (class_driver_client_deregister ESP_OK t.drv >>= scheduling_pass r) = .ok p ∧
      p.stop = true ∧ p.drv.dev_hdl = NULL ∧ p.drv.dev_addr = 0 ∧
      (t.drv.dev_hdl ≠ NULL → p.trace = [ACTION_CLOSE_DEV, ACTION_EXIT]) ∧
      (t.drv.dev_hdl = NULL → p.trace = [ACTION_EXIT]) := by
  obtain ⟨hshape, hex⟩ := run_events_reach_shape es _ t hes (Or.inl ⟨rfl, rfl, rfl⟩) rfl hrun
  refine ⟨hex, ?_⟩
  obtain ⟨⟨c1, a, hd, acts⟩, ex⟩ := t
  simp only at hshape hno ⊢
  rcases hshape with ⟨h1, h2, h3⟩ | ⟨_, h3⟩ | ⟨_, h2, _⟩
  · subst h1 h2 h3
    have hdereg : class_driver_client_deregister ESP_OK
        { client_hdl := c1, dev_addr := 0, dev_hdl := NULL, actions := 0 } =
        .ok { client_hdl := c1, dev_addr := 0, dev_hdl := NULL, actions := 0x40 } := by
      simp +decide [class_driver_client_deregister_eq, flag_or, action_t.val]
    have hp : (class_driver_client_deregister ESP_OK
        { client_hdl := c1, dev_addr := 0, dev_hdl := NULL, actions := 0 }
        >>= scheduling_pass r) =
        .ok { drv := { client_hdl := c1, dev_addr := 0, dev_hdl := NULL, actions := 0x40 }
              trace := [ACTION_EXIT], transfers := [], stop := true } := by
      simp only [hdereg, bind, Except.bind]
      exact scheduling_pass_exit_only r _ _ _
    exact ⟨_, hp, rfl, rfl, rfl, fun hn => absurd rfl hn, fun _ => rfl⟩
  · subst h3
    exact absurd hno (by decide)
  · have hdereg : class_driver_client_deregister ESP_OK
        { client_hdl := c1, dev_addr := a, dev_hdl := hd, actions := acts } =
        .ok { client_hdl := c1, dev_addr := a, dev_hdl := hd, actions := 0x60 } := by
      simp +decide [class_driver_client_deregister_eq, h2, flag_or, action_t.val]
    have hp : (class_driver_client_deregister ESP_OK
        { client_hdl := c1, dev_addr := a, dev_hdl := hd, actions := acts }
        >>= scheduling_pass r) =
        .ok { drv := { client_hdl := c1, dev_addr := 0, dev_hdl := NULL, actions := 0xC0 }
              trace := [ACTION_CLOSE_DEV, ACTION_EXIT], transfers := [], stop := true } := by
      simp only [hdereg, bind, Except.bind]
      exact scheduling_pass_close_exit r _ _ _ hclose
    exact ⟨_, hp, rfl, rfl, rfl, fun _ => rfl, fun hn => absurd hn h2⟩

/-- C15 amended, on the session after an attach for address 5 and the
enumeration pass (handle 7). -/
theorem shutdown_stops_loop_device_closed_witness :
    ((∀ e ∈ [session_event.attach 5, session_event.pass (replies_ok 7)], not_shutdown e) ∧
      run_events ⟨idle 1, false⟩ [session_event.attach 5, session_event.pass (replies_ok 7)] =
        .ok ⟨{ client_hdl := 1, dev_addr := 5, dev_hdl := 7, actions := 0 }, false⟩ ∧
      flag_set 0 ACTION_OPEN_DEV = false ∧ (replies_ok 8).device_close_err = ESP_OK) ∧
    ∃ p, (class_driver_client_deregister ESP_OK
          { client_hdl := 1, dev_addr := 5, dev_hdl := 7, actions := 0 }
        >>= scheduling_pass (replies_ok 8)) = .ok p ∧
      p.stop = true ∧ p.drv.dev_hdl = NULL ∧ p.drv.dev_addr = 0 ∧
      ((7 : Nat) ≠ NULL → p.trace = [ACTION_CLOSE_DEV, ACTION_EXIT]) ∧
      ((7 : Nat) = NULL → p.trace = [ACTION_EXIT]) :=
  ⟨⟨by decide, by decide, by decide, by decide⟩,
   (shutdown_stops_loop_device_closed 1
      [session_event.attach 5, session_event.pass (replies_ok 7)]
      ⟨{ client_hdl := 1, dev_addr := 5, dev_hdl := 7, actions := 0 }, false⟩ (replies_ok 8)
      (by decide) (by decide) (by decide) (by decide)).2⟩

/-! ## C14: `CCID_ON` runs once per device session -/

theorem one_shot_append (ph : ccid_phase) (l1 l2 : List log_entry) :
    one_shot ph (l1 ++ l2) = (one_shot ph l1).bind (fun ph1 => one_shot ph1 l2) := by
  induction l1 generalizing ph with
  | nil => simp [one_shot]
  | cons x l ih =>
    simp only [List.cons_append, one_shot]
    cases ph.step x with
    | none => simp
    | some ph1 => simpa using ih ph1

theorem scheduling_pass_open_at_zero (r : usb_host_replies) (c : Nat) :
    scheduling_pass r { client_hdl := c, dev_addr := 0, dev_hdl := NULL, actions := 0x01 } =
      .error Fault.assert_failed := by
  simp +decide [scheduling_pass, guarded, action_open_dev_eq, flag_set, action_t.val, bind,
    Except.bind]

/-- One event of a run in which every call succeeds: the monitor accepts what
the event logs, and the session and the phase still go together. -/
theorem deliver_coupled (t t1 : task_t) (e : session_event) (ph : ccid_phase)
    (he : event_succeeds e) (ht : coupled t.drv ph) (hx : t.exited = false)
    (h : deliver t e = .ok t1) :
    ∃ ph1, one_shot ph (event_log t e) = some ph1 ∧ coupled t1.drv ph1 ∧ t1.exited = false := by
  obtain ⟨⟨c, a, hd, acts⟩, ex⟩ := t
  simp only at ht hx
  subst hx
  cases e with
  | shutdown u => exact absurd he (by simp [event_succeeds])
  | attach a1 =>
    simp only [deliver, on_attach, client_event_cb, Bool.false_eq_true, if_false] at h
    by_cases h0 : a = 0
    · subst h0
      simp only [if_true, Except.ok.injEq] at h
      subst h
      have e0 : flag_or 0 ACTION_OPEN_DEV = 0x01 := by decide
      have e1 : flag_or 0x01 ACTION_OPEN_DEV = 0x01 := by decide
      rcases ht with ⟨_, h2, h3, h4⟩ | ⟨h2, h3, h4⟩ | ⟨h1, _, _⟩
      · simp only at h2 h3
        subst h2 h3 h4
        exact ⟨ccid_phase.armed, by simp [event_log, one_shot, ccid_phase.step],
          Or.inr (Or.inl ⟨rfl, e0, rfl⟩), rfl⟩
      · simp only at h2 h3
        subst h2 h3 h4
        exact ⟨ccid_phase.armed, by simp [event_log, one_shot, ccid_phase.step],
          Or.inr (Or.inl ⟨rfl, e1, rfl⟩), rfl⟩
      · exact absurd rfl h1
    · simp only [h0, if_false, Except.ok.injEq] at h
      subst h
      exact ⟨ph, by simp [event_log, one_shot, h0], ht, rfl⟩
  | detach =>
    simp only [deliver, on_detach, client_event_cb, Bool.false_eq_true, if_false] at h
    by_cases h0 : hd = NULL
    · simp only [h0, ne_eq, not_true_eq_false, if_false, Except.ok.injEq] at h
      subst h
      exact ⟨ph, by simp [event_log, one_shot], by simpa [h0] using ht, rfl⟩
    · simp only [ne_eq, h0, not_false_eq_true, if_true, Except.ok.injEq] at h
      subst h
      rcases ht with ⟨_, h2, _⟩ | ⟨h2, _⟩ | ⟨h1, h2, _, h4⟩
      · exact absurd h2 h0
      · exact absurd h2 h0
      · exact ⟨ph, by simp [event_log, one_shot], Or.inr (Or.inr ⟨h1, h2, Or.inr rfl, h4⟩), rfl⟩
  | pass r =>
    simp only [deliver, Bool.false_eq_true, if_false, loop_iteration] at h
    by_cases hz : acts = 0
    · simp only [hz, if_true, Except.ok.injEq] at h
      subst h
      exact ⟨ph, by simp [event_log, one_shot, hz], by simpa [hz] using ht, rfl⟩
    · simp only [hz, if_false] at h
      rcases ht with ⟨_, _, h3, _⟩ | ⟨h2, h3, h4⟩ | ⟨h1, h2, h3 | h3, h4⟩
      · exact absurd h3 hz
      · simp only at h2 h3
        subst h2 h3 h4
        by_cases ha : a = 0
        · subst ha
          rw [scheduling_pass_open_at_zero] at h
          simp at h
        · have hr : all_succeed r := he
          cases hopen : r.device_open_hdl with
          | none => exact absurd hopen hr.2.1
          | some k =>
            have hk : k ≠ NULL := fun h0 => hr.2.2.1 (by rw [hopen, h0])
            have hp := scheduling_pass_enumerate c a k r ha hr hopen
            rw [hp] at h
            simp only [Except.ok.injEq] at h
            subst h
            refine ⟨ccid_phase.fired, ?_, Or.inr (Or.inr ⟨ha, hk, Or.inl rfl, rfl⟩), rfl⟩
            simp [event_log, hp, one_shot, ccid_phase.step]
      · exact absurd h3 hz
      · simp only at h3
        subst h3 h4
        have hp := scheduling_pass_close_only r c a hd
        have hr : all_succeed r := he
        rw [if_pos hr.2.2.2.2.2.2.2.1] at hp
        rw [hp] at h
        simp only [Except.ok.injEq] at h
        subst h
        refine ⟨ccid_phase.closed, ?_, Or.inl ⟨rfl, rfl, rfl, rfl⟩, rfl⟩
        simp [event_log, hp, one_shot, ccid_phase.step]

theorem run_log_one_shot (es : List session_event) (t t1 : task_t) (ph : ccid_phase)
    (log : List log_entry) (hes : ∀ e ∈ es, event_succeeds e) (ht : coupled t.drv ph)
    (hx : t.exited = false) (h : run_log t es = .ok (t1, log)) :
    ∃ ph1, one_shot ph log = some ph1 := by
  induction es generalizing t ph log with
  | nil =>
    simp only [run_log, Except.ok.injEq, Prod.mk.injEq] at h
    obtain ⟨_, rfl⟩ := h
    exact ⟨ph, rfl⟩
  | cons e es ih =>
    simp only [run_log] at h
    cases hres : deliver t e with
    | error f => simp [hres] at h
    | ok t2 =>
      simp only [hres] at h
      cases hrest : run_log t2 es with
      | error f => simp [hrest] at h
      | ok res =>
        obtain ⟨t3, l⟩ := res
        simp only [hrest, Except.ok.injEq, Prod.mk.injEq] at h
        obtain ⟨rfl, rfl⟩ := h
        obtain ⟨ph1, k1, k2, k3⟩ :=
          deliver_coupled t t2 e ph (hes e (List.mem_cons_self e es)) ht hx hres
        obtain ⟨ph2, k4⟩ :=
          ih t2 ph1 l (fun x hx1 => hes x (List.mem_cons_of_mem e hx1)) k2 k3 hrest
        exact ⟨ph2, by rw [one_shot_append, k1]; simpa using k4⟩

/-- C14: along every sequence of attach notifications, detach notifications
and loop iterations from the idle session, every call of the host library
succeeding, the log of accepted attaches and executed actions passes the
one-shot monitor: `CCID_ON` runs only after an accepted attach, at most once
before the next `CLOSE_DEV`, and not again until the device has been closed
and a new attach accepted. -/
theorem ccid_on_one_shot (c : Nat) (es : List session_event) (t : task_t)
    (log : List log_entry) (hes : ∀ e ∈ es, event_succeeds e)
    (hrun : run_log ⟨idle c, false⟩ es = .ok (t, log)) :
    ∃ ph, one_shot ccid_phase.closed log = some ph :=
  run_log_one_shot es _ t ccid_phase.closed log hes (Or.inl ⟨rfl, rfl, rfl, rfl⟩) rfl hrun

/-- C14, on a run with two device sessions: attach, enumeration, an ignored
attach, an idle iteration, detach, teardown, then a second attach and
enumeration. `CCID_ON` is logged once in each session. -/
theorem ccid_on_one_shot_witness :
    (∀ e ∈ [session_event.attach 5, session_event.pass (replies_ok 7),
        session_event.attach 6, session_event.pass (replies_ok 7), session_event.detach,
        session_event.pass (replies_ok 7), session_event.attach 9,
        session_event.pass (replies_ok 8)], event_succeeds e) ∧
    run_log ⟨idle 1, false⟩ [session_event.attach 5, session_event.pass (replies_ok 7),
        session_event.attach 6, session_event.pass (replies_ok 7), session_event.detach,
        session_event.pass (replies_ok 7), session_event.attach 9,
        session_event.pass (replies_ok 8)] =
      .ok (⟨{ client_hdl := 1, dev_addr := 9, dev_hdl := 8, actions := 0 }, false⟩,
        [log_entry.accepted 5, log_entry.ran ACTION_OPEN_DEV, log_entry.ran ACTION_GET_DEV_INFO,
         log_entry.ran ACTION_GET_DEV_DESC, log_entry.ran ACTION_GET_CONFIG_DESC,
         log_entry.ran ACTION_GET_STR_DESC, log_entry.ran ACTION_CCID_ON,
         log_entry.ran ACTION_CLOSE_DEV, log_entry.ran ACTION_RECONNECT,
         log_entry.accepted 9, log_entry.ran ACTION_OPEN_DEV, log_entry.ran ACTION_GET_DEV_INFO,
         log_entry.ran ACTION_GET_DEV_DESC, log_entry.ran ACTION_GET_CONFIG_DESC,
         log_entry.ran ACTION_GET_STR_DESC, log_entry.ran ACTION_CCID_ON]) ∧
    ∃ ph, one_shot ccid_phase.closed
        [log_entry.accepted 5, log_entry.ran ACTION_OPEN_DEV, log_entry.ran ACTION_GET_DEV_INFO,
         log_entry.ran ACTION_GET_DEV_DESC, log_entry.ran ACTION_GET_CONFIG_DESC,
         log_entry.ran ACTION_GET_STR_DESC, log_entry.ran ACTION_CCID_ON,
         log_entry.ran ACTION_CLOSE_DEV, log_entry.ran ACTION_RECONNECT,
         log_entry.accepted 9, log_entry.ran ACTION_OPEN_DEV, log_entry.ran ACTION_GET_DEV_INFO,
         log_entry.ran ACTION_GET_DEV_DESC, log_entry.ran ACTION_GET_CONFIG_DESC,
         log_entry.ran ACTION_GET_STR_DESC, log_entry.ran ACTION_CCID_ON] = some ph :=
  ⟨by decide, by decide,
   ccid_on_one_shot 1 [session_event.attach 5, session_event.pass (replies_ok 7),
     session_event.attach 6, session_event.pass (replies_ok 7), session_event.detach,
     session_event.pass (replies_ok 7), session_event.attach 9,
     session_event.pass (replies_ok 8)]
     ⟨{ client_hdl := 1, dev_addr := 9, dev_hdl := 8, actions := 0 }, false⟩ _
     (by decide) (by decide)⟩

end Pcsc
